import Mathlib

/-!
# Verification of the poll-to-spreadsheet sync bot core

Shallow embedding of the bot's conversation engine, column-resolution
algebra, poll vote aggregation, identity matching and override gate,
translated from the TypeScript source (`sheets.ts`, `workflow.ts`,
`poll.ts`, `session.ts`, the column/sheet/poll handlers and
`bot-helpers.ts`).  JavaScript `Map`s are embedded as association lists
with `Map.set` upsert semantics, `Set`s as duplicate-free lists with
append-if-absent insertion, `null`/`undefined` cells as `Option`, and
fallible backing-store calls as `Except` values supplied through a
`Store` record.
-/

namespace FootballSync

/-! ## Column-letter algebra (sheets.ts) -/

/-- `columnLetterToIndex`: "A" -> 0, "Z" -> 25, "AA" -> 26.
Folds `index * 26 + (charCode - 64)` over the characters, then
subtracts one, exactly as the source. -/
def columnLetterToIndex (letter : String) : Int :=
  (letter.data.foldl (fun acc c => acc * 26 + ((c.toNat : Int) - 64)) 0) - 1

/-- Loop body of `indexToColumnLetter`: while `index > 0`, decrement,
prepend the digit character, divide by 26.  The loop index strictly
decreases, so running it with structural fuel equal to the initial
index is exact (`index ≤ fuel` is preserved). -/
def indexToColumnLetterGo : Nat → Nat → List Char → List Char
  | 0, _, result => result
  | fuel + 1, index, result =>
    if index > 0 then
      indexToColumnLetterGo fuel ((index - 1) / 26)
        (Char.ofNat (65 + (index - 1) % 26) :: result)
    else result

/-- `indexToColumnLetter`: 0 -> "A", 25 -> "Z", 26 -> "AA".
The source increments the index and runs the while loop; a negative
JavaScript index never enters the loop, which `Int.toNat` reproduces. -/
def indexToColumnLetter (index : Int) : String :=
  String.mk (indexToColumnLetterGo (index + 1).toNat (index + 1).toNat [])

/-- `getNextColumnLetter`: "O" -> "P", "Z" -> "AA". -/
def getNextColumnLetter (letter : String) : String :=
  indexToColumnLetter (columnLetterToIndex letter + 1)

/-- The digit-fold of `columnLetterToIndex` before the final `- 1`. -/
def letterVal (l : List Char) : Int :=
  l.foldl (fun acc c => acc * 26 + ((c.toNat : Int) - 64)) 0

lemma letterVal_foldl_init (l : List Char) (a : Int) :
    l.foldl (fun acc c => acc * 26 + ((c.toNat : Int) - 64)) a
      = a * 26 ^ l.length + letterVal l := by
  induction l generalizing a with
  | nil => simp [letterVal]
  | cons c t ih =>
    simp only [List.foldl_cons, List.length_cons, letterVal]
    rw [ih, ih (0 * 26 + ((c.toNat : Int) - 64))]
    ring

lemma charToNat_ofNat_small {m : Nat} (hv : m < 0xd800) : (Char.ofNat m).toNat = m := by
  simp [Char.ofNat, Nat.isValidChar, hv, Char.toNat, Char.ofNatAux, UInt32.ofNat',
    UInt32.toNat, BitVec.toNat_ofNatLt]

lemma letterVal_go (fuel : Nat) :
    ∀ (n : Nat) (acc : List Char), n ≤ fuel →
      letterVal (indexToColumnLetterGo fuel n acc)
        = (n : Int) * 26 ^ acc.length + letterVal acc := by
  induction fuel with
  | zero =>
    intro n acc hle
    have h0 : n = 0 := by omega
    subst h0
    simp [indexToColumnLetterGo]
  | succ fuel ih =>
    intro n acc hle
    rw [indexToColumnLetterGo]
    by_cases h : n > 0
    · simp only [h, if_true]
      have hle' : (n - 1) / 26 ≤ fuel := by omega
      rw [ih _ _ hle']
      have hchar : (Char.ofNat (65 + (n - 1) % 26)).toNat = 65 + (n - 1) % 26 :=
        charToNat_ofNat_small (by omega)
      have hval : letterVal (Char.ofNat (65 + (n - 1) % 26) :: acc)
          = ((((n - 1) % 26 : Nat) : Int) + 1) * 26 ^ acc.length + letterVal acc := by
        show List.foldl _ _ _ = _
        rw [List.foldl_cons, letterVal_foldl_init]
        have hc : ((Char.ofNat (65 + (n - 1) % 26)).toNat : Int)
            = 65 + (((n - 1) % 26 : Nat) : Int) := by
          rw [hchar]; push_cast; ring
        rw [hc]
        ring
      simp only [List.length_cons] at hval ⊢
      rw [hval, pow_succ]
      have key : ((((n - 1) / 26 : Nat)) : Int) * 26 + (((n - 1) % 26 : Nat) : Int) + 1
          = (n : Int) := by omega
      linear_combination (26 ^ acc.length : Int) * key
    · have h0 : n = 0 := by omega
      subst h0
      simp

/-- Round trip: decoding a non-negative index back through
`columnLetterToIndex` recovers the index. -/
lemma columnLetterToIndex_indexToColumnLetter (n : Int) (hn : 0 ≤ n) :
    columnLetterToIndex (indexToColumnLetter n) = n := by
  unfold columnLetterToIndex indexToColumnLetter
  have htn : ((n + 1).toNat : Int) = n + 1 := Int.toNat_of_nonneg (by omega)
  have h2 := letterVal_go (n + 1).toNat (n + 1).toNat [] (le_refl _)
  simp only [List.length_nil, pow_zero, mul_one] at h2
  have h0 : letterVal ([] : List Char) = 0 := rfl
  rw [h0] at h2
  show letterVal (indexToColumnLetterGo (n + 1).toNat (n + 1).toNat []) - 1 = n
  rw [h2]
  omega

/-- Successor law: whenever the decoded index is at least `-1` (true of
every well-formed column letter, and of the empty string), advancing a
column advances its index by exactly one. -/
lemma columnLetterToIndex_getNextColumnLetter (s : String)
    (h : -1 ≤ columnLetterToIndex s) :
    columnLetterToIndex (getNextColumnLetter s) = columnLetterToIndex s + 1 := by
  unfold getNextColumnLetter
  exact columnLetterToIndex_indexToColumnLetter _ (by omega)

/-! ## JavaScript string primitives

Embedded structurally over the character list so that every definition
evaluates inside the kernel. -/

/-- JavaScript `String.prototype.trim()`. -/
def jsTrim (s : String) : String :=
  String.mk (((s.data.dropWhile Char.isWhitespace).reverse.dropWhile
    Char.isWhitespace).reverse)

/-- ASCII and Cyrillic simple lowercase mapping, as JavaScript
`toLowerCase` acts on the characters this system compares. -/
def jsCharToLower (c : Char) : Char :=
  if 65 ≤ c.toNat ∧ c.toNat ≤ 90 then Char.ofNat (c.toNat + 32)
  else if 0x410 ≤ c.toNat ∧ c.toNat ≤ 0x42F then Char.ofNat (c.toNat + 32)
  else if c.toNat = 0x401 then Char.ofNat 0x451
  else c

/-- JavaScript `String.prototype.toLowerCase()`. -/
def jsToLower (s : String) : String :=
  String.mk (s.data.map jsCharToLower)

/-- ASCII uppercase mapping (`toUpperCase` on column letters). -/
def jsCharToUpper (c : Char) : Char :=
  if 97 ≤ c.toNat ∧ c.toNat ≤ 122 then Char.ofNat (c.toNat - 32) else c

/-- JavaScript `String.prototype.toUpperCase()`. -/
def jsToUpper (s : String) : String :=
  String.mk (s.data.map jsCharToUpper)

/-- `nick.replace(/^@/, '')`: strip at most one leading `@`. -/
def stripLeadingAt (s : String) : String :=
  match s.data with
  | '@' :: rest => String.mk rest
  | _ => s

def isDigitChar (c : Char) : Bool :=
  48 ≤ c.toNat && c.toNat ≤ 57

def digitsToNat (ds : List Char) : Nat :=
  ds.foldl (fun acc c => acc * 10 + (c.toNat - 48)) 0

/-- JavaScript `parseInt(text, 10)`: skip leading whitespace, optional
sign, then the longest run of decimal digits; `none` models `NaN`
(no digits at all). -/
def jsParseInt (s : String) : Option Int :=
  let cs := s.data.dropWhile Char.isWhitespace
  let signAndRest : Int × List Char :=
    match cs with
    | '-' :: r => (-1, r)
    | '+' :: r => (1, r)
    | r => (1, r)
  let ds := signAndRest.2.takeWhile isDigitChar
  if ds.isEmpty then none
  else some (signAndRest.1 * (digitsToNat ds : Int))

/-- JavaScript `parseFloat(text)` as this flow observes it: whether the
text starts with a number at all (`none` models `NaN`) and that
number's sign.  The value is kept at integer precision — the fractional
digits only participate in the `NaN` test, since the engine never
branches on the magnitude (exponent forms are out of scope). -/
def jsParseFloat (s : String) : Option Int :=
  let cs := s.data.dropWhile Char.isWhitespace
  let signAndRest : Int × List Char :=
    match cs with
    | '-' :: r => (-1, r)
    | '+' :: r => (1, r)
    | r => (1, r)
  let intDigits := signAndRest.2.takeWhile isDigitChar
  let afterInt := signAndRest.2.drop intDigits.length
  let fracDigits : List Char :=
    match afterInt with
    | '.' :: r => r.takeWhile isDigitChar
    | _ => []
  if intDigits.isEmpty && fracDigits.isEmpty then none
  else some (signAndRest.1 * (digitsToNat intDigits : Int))

/-! ## Sheet constants (constants.ts) -/

def SHEET_DATA_FIRST_ROW : Nat := 7

def SHEET_DATA_FIRST_COLUMN : String := "F"

def SHEET_NICKNAME_COLUMN : String := "B"

/-! ## Cells and the header-row scan (sheets.ts `findLastDateColumn`)

A cell read from the backing store is `Option String`: `none` models a
JavaScript `null`/`undefined` entry, `some v` a string value. -/

/-- The blank test of `findLastDateColumn`:
`value == null || value === undefined || String(value).trim() === ''`. -/
def isBlankCell : Option String → Bool
  | none => true
  | some v => jsTrim v == ""

/-- JavaScript `String(x)` on an optional value: `String(undefined)`
is the string `"undefined"`. -/
def jsStringOfCell : Option String → String
  | none => "undefined"
  | some v => v

/-- A `{column, date}` candidate produced by the scan. -/
structure ColumnCandidate where
  column : String
  date : String
deriving DecidableEq, Repr

/-- Loop of `findLastDateColumn`: walk the header-row values from index
0; at the first blank cell, return the column of the previous index
paired with the previous value, trimmed.  `prev` carries `values[i-1]`
(`none` = `undefined` before index 0). -/
def findLastDateColumnGo (i : Nat) (prev : Option String) :
    List (Option String) → Option ColumnCandidate
  | [] => none
  | v :: rest =>
    if isBlankCell v then
      some { column := indexToColumnLetter
               (columnLetterToIndex SHEET_DATA_FIRST_COLUMN + ((i : Int) - 1)),
             date := jsTrim (jsStringOfCell prev) }
    else findLastDateColumnGo (i + 1) v rest

/-- `findLastDateColumn` on the header-row values read from
`F1:ZZ1`: the last non-empty cell before the first empty cell, or
`null` when no empty cell occurs in the returned run. -/
def findLastDateColumn (values : List (Option String)) : Option ColumnCandidate :=
  findLastDateColumnGo 0 none values

/-! ## User-input parsing (bot-helpers.ts, column-handlers) -/

inductive YesNo where
  | yes
  | no
deriving DecidableEq, Repr

/-- `parseYesNo`: trim, lowercase, accept English yes/y/no/n and
Russian да/д/нет/н, otherwise `null`. -/
def parseYesNo (text : String) : Option YesNo :=
  let normalized := jsToLower (jsTrim text)
  if normalized = "yes" ∨ normalized = "y" ∨ normalized = "да" ∨ normalized = "д" then
    some YesNo.yes
  else if normalized = "no" ∨ normalized = "n" ∨ normalized = "нет" ∨ normalized = "н" then
    some YesNo.no
  else none

def isAsciiLetter (c : Char) : Bool :=
  (65 ≤ c.toNat && c.toNat ≤ 90) || (97 ≤ c.toNat && c.toNat ≤ 122)

/-- The column-letter test `/^[A-Z]{1,2}$/i`. -/
def columnLetterPattern (s : String) : Bool :=
  (s.length == 1 || s.length == 2) && s.data.all isAsciiLetter

/-! ## Session record (session.ts) -/

inductive BotState where
  | idle
  | awaiting_column_confirmation
  | awaiting_new_column_choice
  | awaiting_date_name
  | awaiting_cost
  | awaiting_player_count
  | awaiting_player_count_confirmation
  | awaiting_usernames
  | awaiting_override_confirmation
  | awaiting_poll_intent
  | awaiting_poll_option_selection
  | awaiting_column_selection
deriving DecidableEq, Repr

/-- An `{nickname, value}` pair reported by `checkExistingValues`. -/
structure ExistingValue where
  nickname : String
  value : String
deriving DecidableEq, Repr

/-- A `{column, date}` pair stored during column-search disambiguation. -/
structure ColumnMatch where
  column : String
  date : String
deriving DecidableEq, Repr

/-- `SessionData`.  `columnMatches` belongs to the search-enabled
revision of the column handlers present in the source tree. -/
structure SessionData where
  state : BotState
  usernames : List String
  detectedColumn : Option String
  targetColumn : Option String
  isNewColumn : Option Bool
  dateName : Option String
  cost : Option Int
  playerCount : Option Int
  column : Option String
  nicknameRowsEntries : Option (List (String × Nat))
  existingValuesEntries : Option (List ExistingValue)
  pollId : Option String
  pollQuestion : Option String
  columnMatches : Option (List ColumnMatch)
deriving DecidableEq, Repr

/-- The initial session value installed by the session middleware. -/
def initialSession : SessionData :=
  { state := BotState.idle
    usernames := []
    detectedColumn := none
    targetColumn := none
    isNewColumn := none
    dateName := none
    cost := none
    playerCount := none
    column := none
    nicknameRowsEntries := none
    existingValuesEntries := none
    pollId := none
    pollQuestion := none
    columnMatches := none }

/-- `resetSession`: clears every field the source lists and returns
the state to idle (`columnMatches` is not touched by this revision). -/
def resetSession (s : SessionData) : SessionData :=
  { s with
    state := BotState.idle
    usernames := []
    detectedColumn := none
    targetColumn := none
    isNewColumn := none
    dateName := none
    cost := none
    playerCount := none
    column := none
    nicknameRowsEntries := none
    existingValuesEntries := none
    pollId := none
    pollQuestion := none }

/-- JavaScript truthiness test `!x` for an optional string: `undefined`
and the empty string are falsy. -/
def isFalsyStr : Option String → Bool
  | none => true
  | some s => s == ""

/-- JavaScript `a || b` on optional strings. -/
def jsOrStr (a b : Option String) : Option String :=
  if isFalsyStr a then b else a

/-! ## Engine effects

Each handler is embedded as a pure function from the session (and a
`Store` of backing-store call results) to a `StepOut`: the final
session, the outbound replies in order, and the batched zero-writes
issued.  A backing-store call that fails is an `Except.error` carried
in the `Store`; `try`/`catch` blocks in the source become `match`es on
that `Except`. -/

/-- Outbound replies, abstracted to their kind and data. -/
inductive Reply where
  | detecting
  | noDateColumns (firstColumn : String)
  | detectedColumn (column date : String)
  | apiError (action errMessage : String)
  | targetColumnNotSet
  | sessionDataLost
  | errorText (message : String)
  | invalidYesNo
  | invalidYesNoColumnHint
  | searchNotFound (text : String)
  | multipleMatches (text : String) (candidates : List ColumnMatch)
  | newColumnPrompt (column : String)
  | askDateName (column : String)
  | askCost (column : String)
  | askUsernames (column : String)
  | askDateNameRetry
  | askCostRetry
  | askPlayerCountRetry
  | cancelled
  | checkingSheet
  | noMatches (usernames : List String)
  | playerCountSuggest (count : Nat)
  | askPlayerCount
  | overridePrompt (column : String) (existing : List ExistingValue)
  | updating
  | updateResult (column : String) (updated : Nat)
      (updatedNicknames skippedNicknames notFoundNicknames : List String)
deriving DecidableEq, Repr

/-- One `writeZeros` invocation: the rows it was given, the target
column, the `overrideExisting` flag and the skip-list used for the
report. -/
structure WriteCall where
  rows : List (String × Nat)
  column : String
  override : Bool
  skipped : List String
deriving DecidableEq, Repr

/-- Result of one handler run. -/
structure StepOut where
  session : SessionData
  replies : List Reply
  writes : List WriteCall
deriving DecidableEq, Repr

/-- Column metadata from rows 1-3 (`getColumnMetadata`). -/
structure ColumnMetadata where
  date : Option String
  cost : Option Int
  playerCount : Option Int
deriving DecidableEq, Repr

/-- Result shape of `findColumnByDateText` (search-enabled revision). -/
inductive SearchResult where
  | notFound
  | found (column : String)
  | multiple (candidates : List ColumnMatch)
deriving DecidableEq, Repr

/-- The backing store, as the results its calls would return during one
event's processing. -/
structure Store where
  headerRow : Except String (List (Option String))
  search : Except String SearchResult
  metadata : Except String ColumnMetadata
  nickRows : Except String (List (String × Nat))
  existingVals : Except String (List ExistingValue)
  metaWriteOk : Except String Unit
  writeOk : Except String Unit

/-- `replyErrorAndReset`: reply, then reset the session. -/
def replyErrorAndResetOut (s : SessionData) (r : Reply) : StepOut :=
  { session := resetSession s, replies := [r], writes := [] }

/-- `handleApiError`: log, reply with the error description, reset. -/
def handleApiErrorOut (s : SessionData) (action errMessage : String) : StepOut :=
  { session := resetSession s, replies := [Reply.apiError action errMessage], writes := [] }

/-- Prepend a reply already sent before the modelled continuation. -/
def withReply (r : Reply) (o : StepOut) : StepOut :=
  { o with replies := r :: o.replies }

/-- Return value of `writeZeros`. -/
structure WriteResult where
  updated : Nat
  notFound : List String
deriving DecidableEq, Repr

/-- `writeZeros` (sheets.ts): empty input writes nothing; with
`overrideExisting = false` the rows with existing values are filtered
out via `checkExistingValues`; a non-empty remainder issues the batch
update. -/
def writeZerosStore (store : Store) (nicknameRows : List (String × Nat))
    (overrideExisting : Bool) : Except String WriteResult :=
  if nicknameRows.length = 0 then Except.ok { updated := 0, notFound := [] }
  else
    let rowsToUpdateResult : Except String (List (String × Nat)) :=
      if overrideExisting then Except.ok nicknameRows
      else
        match store.existingVals with
        | Except.error e => Except.error e
        | Except.ok existingValues =>
          Except.ok (nicknameRows.filter
            (fun r => !(existingValues.any (fun ev => ev.nickname == r.1))))
    match rowsToUpdateResult with
    | Except.error e => Except.error e
    | Except.ok rowsToUpdate =>
      if rowsToUpdate.length = 0 then Except.ok { updated := 0, notFound := [] }
      else
        match store.writeOk with
        | Except.error e => Except.error e
        | Except.ok _ => Except.ok { updated := rowsToUpdate.length, notFound := [] }

/-- `writeZerosAndRespond` (workflow.ts): reply, run `writeZeros`,
build the outcome report, reset the session.  A store failure
propagates to the caller's `catch`. -/
def writeZerosAndRespond (store : Store) (s : SessionData)
    (nicknameRows : List (String × Nat)) (column : String)
    (overrideExisting : Bool) (skippedNicknames : List String) :
    Except String StepOut :=
  match writeZerosStore store nicknameRows overrideExisting with
  | Except.error e => Except.error e
  | Except.ok result =>
    let allFoundNicknames := nicknameRows.map Prod.fst
    let updatedNicknames := allFoundNicknames.filter
      (fun n => !(skippedNicknames.contains n))
    let notFoundNicknames := s.usernames.filter
      (fun u => !(allFoundNicknames.contains u))
    Except.ok
      { session := resetSession s
        replies := [Reply.updating,
          Reply.updateResult column result.updated updatedNicknames
            skippedNicknames notFoundNicknames]
        writes := [{ rows := nicknameRows, column := column,
                     override := overrideExisting, skipped := skippedNicknames }] }

/-- `checkOverridesAndWrite` (workflow.ts): no conflicts → write
directly with override and empty skip-list; conflicts → store them and
await override confirmation.  Uncaught store failures propagate. -/
def checkOverridesAndWrite (store : Store) (s : SessionData)
    (nicknameRows : List (String × Nat)) : Except String StepOut :=
  match s.targetColumn with
  | none => Except.ok (replyErrorAndResetOut s Reply.targetColumnNotSet)
  | some column =>
    if column == "" then Except.ok (replyErrorAndResetOut s Reply.targetColumnNotSet)
    else
      match store.existingVals with
      | Except.error e => Except.error e
      | Except.ok existingValues =>
        if existingValues.length > 0 then
          Except.ok
            { session := { s with
                column := some column
                nicknameRowsEntries := some nicknameRows
                existingValuesEntries := some existingValues
                state := BotState.awaiting_override_confirmation }
              replies := [Reply.overridePrompt column existingValues]
              writes := [] }
        else writeZerosAndRespond store s nicknameRows column true []

/-- `proceedWithPlayerCountCheck` (workflow.ts): match the usernames
against the nickname column, then either report no matches, ask to
confirm the player count, or continue to the override check.  All
failures are caught here. -/
def proceedWithPlayerCountCheck (store : Store) (s : SessionData) : StepOut :=
  if isFalsyStr s.targetColumn || s.usernames.length == 0 then
    replyErrorAndResetOut s
      (Reply.errorText "missing usernames or target column")
  else
    match store.nickRows with
    | Except.error e =>
      withReply Reply.checkingSheet (handleApiErrorOut s "processing usernames" e)
    | Except.ok nicknameRows =>
      if nicknameRows.length = 0 then
        { session := resetSession s
          replies := [Reply.checkingSheet, Reply.noMatches s.usernames]
          writes := [] }
      else
        match s.playerCount with
        | none =>
          { session := { s with
              state := BotState.awaiting_player_count_confirmation
              nicknameRowsEntries := some nicknameRows }
            replies := [Reply.checkingSheet,
              Reply.playerCountSuggest nicknameRows.length]
            writes := [] }
        | some _ =>
          match checkOverridesAndWrite store s nicknameRows with
          | Except.error e =>
            withReply Reply.checkingSheet
              (handleApiErrorOut s "processing usernames" e)
          | Except.ok out => withReply Reply.checkingSheet out

/-- `proceedWithMetadataCollection` (workflow.ts): read rows 1-3 of the
target column, prompt for the first missing metadata field, and when
date and cost are both present either continue with the poll-supplied
usernames or ask for usernames. -/
def proceedWithMetadataCollection (store : Store) (s : SessionData) : StepOut :=
  if isFalsyStr s.targetColumn then
    replyErrorAndResetOut s Reply.targetColumnNotSet
  else
    let col := s.targetColumn.getD ""
    match store.metadata with
    | Except.error e => handleApiErrorOut s "checking column metadata" e
    | Except.ok metadata =>
      if isFalsyStr metadata.date then
        { session := { s with state := BotState.awaiting_date_name }
          replies := [Reply.askDateName col]
          writes := [] }
      else
        let s1 := { s with dateName := metadata.date }
        match metadata.cost with
        | none =>
          { session := { s1 with state := BotState.awaiting_cost }
            replies := [Reply.askCost col]
            writes := [] }
        | some costVal =>
          let s2 := { s1 with cost := some costVal }
          let s3 :=
            match metadata.playerCount with
            | some pc => { s2 with playerCount := some pc }
            | none => s2
          if s3.usernames.length > 0 then
            proceedWithPlayerCountCheck store s3
          else
            { session := { s3 with state := BotState.awaiting_usernames }
              replies := [Reply.askUsernames col]
              writes := [] }

/-- `startColumnDetectionFlow` (workflow.ts): scan for the last date
column; nothing found → offer to create a column at the configured
first data column; found → ask to confirm it. -/
def startColumnDetectionFlow (store : Store) (s : SessionData) : StepOut :=
  match store.headerRow with
  | Except.error e =>
    withReply Reply.detecting (handleApiErrorOut s "detecting column" e)
  | Except.ok values =>
    match findLastDateColumn values with
    | none =>
      { session := { s with
          state := BotState.awaiting_new_column_choice
          targetColumn := some SHEET_DATA_FIRST_COLUMN
          isNewColumn := some true }
        replies := [Reply.detecting, Reply.noDateColumns SHEET_DATA_FIRST_COLUMN]
        writes := [] }
    | some lastDateColumn =>
      { session := { s with
          detectedColumn := some lastDateColumn.column
          targetColumn := some lastDateColumn.column
          state := BotState.awaiting_column_confirmation }
        replies := [Reply.detecting,
          Reply.detectedColumn lastDateColumn.column lastDateColumn.date]
        writes := [] }

/-! ## Per-state message handlers

Each handler returns `none` when the session is not in its state
(the dispatcher then tries the next handler), and `some` of the run's
effects otherwise. -/

/-- `askForDateName` (search-enabled column-handlers revision). -/
def askForDateName (s : SessionData) (column : String) : StepOut :=
  { session := { s with
      targetColumn := some column
      isNewColumn := some true
      state := BotState.awaiting_date_name }
    replies := [Reply.askDateName column]
    writes := [] }

/-- `handleColumnConfirmation` (plain revision): only yes/no is
accepted; anything else re-prompts in place. -/
def handleColumnConfirmation (store : Store) (s : SessionData) (text : String) :
    Option StepOut :=
  if s.state ≠ BotState.awaiting_column_confirmation then none
  else some <|
    match parseYesNo text with
    | none => { session := s, replies := [Reply.invalidYesNo], writes := [] }
    | some answer =>
      if isFalsyStr s.targetColumn then
        replyErrorAndResetOut s Reply.targetColumnNotSet
      else
        match answer with
        | YesNo.yes => proceedWithMetadataCollection store s
        | YesNo.no =>
          let nextColumn := getNextColumnLetter (s.targetColumn.getD "")
          { session := { s with state := BotState.awaiting_new_column_choice }
            replies := [Reply.newColumnPrompt nextColumn]
            writes := [] }

/-- `handleColumnConfirmation` (search-enabled revision): yes/no first,
then a column-letter token adopted directly, then a date-text search. -/
def handleColumnConfirmationSearch (store : Store) (s : SessionData)
    (text : String) : Option StepOut :=
  if s.state ≠ BotState.awaiting_column_confirmation then none
  else some <|
    let trimmedText := jsTrim text
    match parseYesNo trimmedText with
    | some answer =>
      if isFalsyStr s.targetColumn then
        replyErrorAndResetOut s Reply.targetColumnNotSet
      else
        match answer with
        | YesNo.yes => proceedWithMetadataCollection store s
        | YesNo.no =>
          askForDateName s (getNextColumnLetter (s.targetColumn.getD ""))
    | none =>
      if columnLetterPattern trimmedText then
        proceedWithMetadataCollection store
          { s with
            targetColumn := some (jsToUpper trimmedText)
            isNewColumn := some false }
      else
        match store.search with
        | Except.error e => handleApiErrorOut s "searching for column" e
        | Except.ok SearchResult.notFound =>
          { session := s, replies := [Reply.searchNotFound trimmedText], writes := [] }
        | Except.ok (SearchResult.multiple found) =>
          { session := { s with
              columnMatches := some found
              state := BotState.awaiting_column_selection }
            replies := [Reply.multipleMatches trimmedText found]
            writes := [] }
        | Except.ok (SearchResult.found column) =>
          proceedWithMetadataCollection store
            { s with targetColumn := some column, isNewColumn := some false }

/-- `handleNewColumnChoice` (plain revision): yes advances to the next
column (or the first data column) and asks for the date name; no
cancels. -/
def handleNewColumnChoice (s : SessionData) (text : String) : Option StepOut :=
  if s.state ≠ BotState.awaiting_new_column_choice then none
  else some <|
    match parseYesNo text with
    | none => { session := s, replies := [Reply.invalidYesNo], writes := [] }
    | some YesNo.yes =>
      let newTarget :=
        if isFalsyStr s.targetColumn then SHEET_DATA_FIRST_COLUMN
        else getNextColumnLetter (s.targetColumn.getD "")
      { session := { s with
          targetColumn := some newTarget
          isNewColumn := some true
          state := BotState.awaiting_date_name }
        replies := [Reply.askDateName newTarget]
        writes := [] }
    | some YesNo.no =>
      { session := resetSession s, replies := [Reply.cancelled], writes := [] }

/-- `handleDateName` (column-handlers): a non-blank text is written as
the date name of the target column, then the metadata phase re-runs;
a write failure is caught here. -/
def handleDateName (store : Store) (s : SessionData) (rawText : String) :
    Option StepOut :=
  if s.state ≠ BotState.awaiting_date_name then none
  else some <|
    let trimmed := jsTrim rawText
    if trimmed == "" then
      { session := s, replies := [Reply.askDateNameRetry], writes := [] }
    else
      let s1 := { s with dateName := some trimmed }
      if isFalsyStr s1.targetColumn then
        replyErrorAndResetOut s1 Reply.targetColumnNotSet
      else
        match store.metaWriteOk with
        | Except.error e => handleApiErrorOut s1 "writing date" e
        | Except.ok _ => proceedWithMetadataCollection store s1

/-- `handleCost` (column-handlers): a parsed non-negative number is
written as the cost, then the metadata phase re-runs; a write failure
is caught here. -/
def handleCost (store : Store) (s : SessionData) (text : String) :
    Option StepOut :=
  if s.state ≠ BotState.awaiting_cost then none
  else some <|
    match jsParseFloat text with
    | none => { session := s, replies := [Reply.askCostRetry], writes := [] }
    | some cost =>
      if cost < 0 then
        { session := s, replies := [Reply.askCostRetry], writes := [] }
      else
        let s1 := { s with cost := some cost }
        if isFalsyStr s1.targetColumn then
          replyErrorAndResetOut s1 Reply.targetColumnNotSet
        else
          match store.metaWriteOk with
          | Except.error e => handleApiErrorOut s1 "writing cost" e
          | Except.ok _ => proceedWithMetadataCollection store s1

/-- `handlePlayerCount` (sheet-handlers): a parsed non-negative integer
is adopted and written as the player count, then the override check
runs; failures of the write or of the conflict check are caught
here. -/
def handlePlayerCount (store : Store) (s : SessionData) (text : String) :
    Option StepOut :=
  if s.state ≠ BotState.awaiting_player_count then none
  else some <|
    match jsParseInt text with
    | none => { session := s, replies := [Reply.askPlayerCountRetry], writes := [] }
    | some count =>
      if count < 0 then
        { session := s, replies := [Reply.askPlayerCountRetry], writes := [] }
      else
        let s1 := { s with playerCount := some count }
        if isFalsyStr s1.targetColumn || s1.nicknameRowsEntries = none then
          replyErrorAndResetOut s1 Reply.sessionDataLost
        else
          let nicknameRows := s1.nicknameRowsEntries.getD []
          match store.metaWriteOk with
          | Except.error e => handleApiErrorOut s1 "writing player count" e
          | Except.ok _ =>
            match checkOverridesAndWrite store s1 nicknameRows with
            | Except.error e => handleApiErrorOut s1 "writing player count" e
            | Except.ok out => out

/-- `handlePlayerCountConfirmation` (sheet-handlers): yes adopts the
recognized count, writes it, and continues to the override check; no
asks for the count; unparseable input re-prompts. -/
def handlePlayerCountConfirmation (store : Store) (s : SessionData)
    (text : String) : Option StepOut :=
  if s.state ≠ BotState.awaiting_player_count_confirmation then none
  else some <|
    match parseYesNo text with
    | none => { session := s, replies := [Reply.invalidYesNo], writes := [] }
    | some answer =>
      if isFalsyStr s.targetColumn || s.nicknameRowsEntries = none then
        replyErrorAndResetOut s Reply.sessionDataLost
      else
        let nicknameRows := s.nicknameRowsEntries.getD []
        let recognizedCount := nicknameRows.length
        match answer with
        | YesNo.yes =>
          let s1 := { s with playerCount := some (recognizedCount : Int) }
          match store.metaWriteOk with
          | Except.error e =>
            handleApiErrorOut s1 "writing player count or checking overrides" e
          | Except.ok _ =>
            match checkOverridesAndWrite store s1 nicknameRows with
            | Except.error e =>
              handleApiErrorOut s1 "writing player count or checking overrides" e
            | Except.ok out => out
        | YesNo.no =>
          { session := { s with state := BotState.awaiting_player_count }
            replies := [Reply.askPlayerCount]
            writes := [] }

/-- `handleOverrideConfirmation` (sheet-handlers): yes writes with
override; no writes without override, skipping the conflicting
identities; unparseable input re-prompts. -/
def handleOverrideConfirmation (store : Store) (s : SessionData)
    (text : String) : Option StepOut :=
  if s.state ≠ BotState.awaiting_override_confirmation then none
  else some <|
    match parseYesNo text with
    | none => { session := s, replies := [Reply.invalidYesNo], writes := [] }
    | some answer =>
      let columnToUse := jsOrStr s.column s.targetColumn
      if isFalsyStr columnToUse || s.nicknameRowsEntries = none then
        replyErrorAndResetOut s Reply.sessionDataLost
      else
        let nicknameRows := s.nicknameRowsEntries.getD []
        let overrideExisting := answer == YesNo.yes
        let skippedNicknames :=
          if !overrideExisting then
            match s.existingValuesEntries with
            | some evs => evs.map (fun ev => ev.nickname)
            | none => []
          else []
        match writeZerosAndRespond store s nicknameRows (columnToUse.getD "")
            overrideExisting skippedNicknames with
        | Except.error e => handleApiErrorOut s "updating sheet" e
        | Except.ok out => out

/-! ## Poll vote aggregation (poll.ts)

`votes: Map<number, Set<string>>` is an association list from option
index to the ordered, duplicate-free voter list; `activePolls` is an
association list from poll id to `PollData`. -/

structure PollData where
  question : String
  options : List String
  votes : List (Nat × List String)
deriving DecidableEq, Repr

/-- A `poll_answer` event: the poll id, the voter's username when the
event carries a user with one (`none` models both a missing user and a
user without a username), and the complete current selection. -/
structure PollAnswer where
  poll_id : String
  username : Option String
  option_ids : List Nat
deriving DecidableEq, Repr

/-- JavaScript `Set.add`: append if absent. -/
def setAdd (voters : List String) (u : String) : List String :=
  if voters.contains u then voters else voters ++ [u]

/-- The removal pass: `votes.forEach((voters, id) => voters.delete(u))`. -/
def removeVoterAll (votes : List (Nat × List String)) (u : String) :
    List (Nat × List String) :=
  votes.map (fun kv => (kv.1, kv.2.filter (fun x => x ≠ u)))

/-- One addition step: `if (!votes.has(id)) votes.set(id, new Set());
votes.get(id).add(u)`. -/
def votesAdd : List (Nat × List String) → Nat → String → List (Nat × List String)
  | [], optionId, u => [(optionId, [u])]
  | kv :: rest, optionId, u =>
    if kv.1 = optionId then (kv.1, setAdd kv.2 u) :: rest
    else kv :: votesAdd rest optionId u

/-- `Map.set` on the poll registry for an existing key (the in-place
mutation of the looked-up `PollData`). -/
def pollsSet : List (String × PollData) → String → PollData → List (String × PollData)
  | [], _, _ => []
  | kv :: rest, pollId, pd =>
    if kv.1 = pollId then (kv.1, pd) :: rest
    else kv :: pollsSet rest pollId pd

/-- The vote update of one event: remove the voter from every option's
set, then, when the event carries option indices, add the voter to
each of them. -/
def newVotesFor (votes : List (Nat × List String)) (usernameWithAt : String)
    (option_ids : List Nat) : List (Nat × List String) :=
  let cleared := removeVoterAll votes usernameWithAt
  if option_ids.length > 0 then
    option_ids.foldl (fun vs optionId => votesAdd vs optionId usernameWithAt) cleared
  else cleared

/-- The `poll_answer` handler (`registerPollAnswerHandler`): ignore
untracked polls and events without a username; otherwise remove
`@username` from every option's voter set, then add it to each option
index carried by the event. -/
def handlePollAnswer (polls : List (String × PollData)) (ans : PollAnswer) :
    List (String × PollData) :=
  match polls.lookup ans.poll_id with
  | none => polls
  | some pollData =>
    match ans.username with
    | none => polls
    | some username =>
      if username = "" then polls
      else
        let usernameWithAt := "@" ++ username
        pollsSet polls ans.poll_id
          { pollData with
            votes := newVotesFor pollData.votes usernameWithAt ans.option_ids }

/-- `votersFor`: the voter set of one option (`votes.get(i)`, empty
when absent). -/
def votersFor (votes : List (Nat × List String)) (optionId : Nat) : List String :=
  (votes.lookup optionId).getD []

/-- In how many options' voter sets an identity appears. -/
def optionCount (votes : List (Nat × List String)) (u : String) : Nat :=
  votes.countP (fun kv => kv.2.contains u)

/-! ## Identity matching (sheets.ts `findNicknameRows`) -/

/-- Normalization applied to both sides of the match:
`x.replace(/^@/, '').toLowerCase()`. -/
def normalizeNick (s : String) : String :=
  jsToLower (stripLeadingAt s)

/-- `normalizedNicknames.get(key)`: the map is built by `Map.set` over
the input list, so the last input with a given normalization wins. -/
def lookupOriginal (nicknames : List String) (key : String) : Option String :=
  nicknames.reverse.find? (fun nick => normalizeNick nick == key)

/-- `Map.set` upsert on the accumulated identity-to-row mapping. -/
def assocSet : List (String × Nat) → String → Nat → List (String × Nat)
  | [], k, v => [(k, v)]
  | kv :: rest, k, v =>
    if kv.1 = k then (kv.1, v) :: rest
    else kv :: assocSet rest k v

/-- Scan of the nickname-column cells: row `i` (0-based within the
read range) maps a matching input nickname to sheet row
`SHEET_DATA_FIRST_ROW + i`.  Falsy cells (`undefined` or `""`) are
skipped. -/
def findNicknameRowsGo (nicknames : List String) (i : Nat)
    (acc : List (String × Nat)) : List (Option String) → List (String × Nat)
  | [] => acc
  | cell :: rest =>
    let acc' :=
      match cell with
      | none => acc
      | some v =>
        if v == "" then acc
        else
          match lookupOriginal nicknames (normalizeNick v) with
          | some originalNickname =>
            assocSet acc originalNickname (SHEET_DATA_FIRST_ROW + i)
          | none => acc
    findNicknameRowsGo nicknames (i + 1) acc' rest

/-- `findNicknameRows`: the identity-to-row mapping for the given
nicknames against the cells read from the nickname column. -/
def findNicknameRows (nicknames : List String) (cells : List (Option String)) :
    List (String × Nat) :=
  findNicknameRowsGo nicknames 0 [] cells

/-! ## Concrete fixtures for instantiating the general theorems -/

def storeBase : Store :=
  { headerRow := Except.ok []
    search := Except.ok SearchResult.notFound
    metadata := Except.ok { date := none, cost := none, playerCount := none }
    nickRows := Except.ok []
    existingVals := Except.ok []
    metaWriteOk := Except.ok ()
    writeOk := Except.ok () }

def storeConflict : Store :=
  { storeBase with existingVals := Except.ok [{ nickname := "@a", value := "5" }] }

def storeFailHeader : Store :=
  { storeBase with headerRow := Except.error "boom" }

def storeFailMetadata : Store :=
  { storeBase with metadata := Except.error "boom" }

def storeFailWrite : Store :=
  { storeBase with writeOk := Except.error "boom" }

def storeFailSearch : Store :=
  { storeBase with search := Except.error "boom" }

def storeFailNickRows : Store :=
  { storeBase with nickRows := Except.error "boom" }

def storeFailExisting : Store :=
  { storeBase with existingVals := Except.error "boom" }

def storeFailExistingAfterMatch : Store :=
  { storeBase with
    nickRows := Except.ok [("@a", 7)]
    existingVals := Except.error "boom" }

def storeFailMetaWrite : Store :=
  { storeBase with metaWriteOk := Except.error "boom" }

def sessionConfirmG : SessionData :=
  { initialSession with
    state := BotState.awaiting_column_confirmation
    detectedColumn := some "G"
    targetColumn := some "G" }

def sessionPreWrite : SessionData :=
  { initialSession with
    state := BotState.awaiting_usernames
    targetColumn := some "H"
    usernames := ["@a", "@b"] }

def sessionOverride : SessionData :=
  { initialSession with
    state := BotState.awaiting_override_confirmation
    usernames := ["@a", "@b"]
    targetColumn := some "H"
    column := some "H"
    nicknameRowsEntries := some [("@a", 7), ("@b", 8)]
    existingValuesEntries := some [{ nickname := "@a", value := "5" }] }

def storeOccupied : Store :=
  { storeBase with headerRow := Except.ok [some "Sep 7", some "Sep 14"] }

def sessionNewChoice : SessionData :=
  { initialSession with
    state := BotState.awaiting_new_column_choice
    targetColumn := some "F" }

def sessionPlayerConf : SessionData :=
  { initialSession with
    state := BotState.awaiting_player_count_confirmation
    usernames := ["@a"]
    targetColumn := some "H"
    nicknameRowsEntries := some [("@a", 7)] }

def sessionPreWriteCounted : SessionData :=
  { sessionPreWrite with playerCount := some 2 }

def sessionDateName : SessionData :=
  { initialSession with
    state := BotState.awaiting_date_name
    targetColumn := some "H" }

def sessionCost : SessionData :=
  { initialSession with
    state := BotState.awaiting_cost
    targetColumn := some "H" }

def sessionPlayerCount : SessionData :=
  { initialSession with
    state := BotState.awaiting_player_count
    targetColumn := some "H"
    nicknameRowsEntries := some [("@a", 7)] }

def c1Polls : List (String × PollData) :=
  [("p1", { question := "q", options := ["Yes", "No"], votes := [] })]

def c1EventMulti : PollAnswer :=
  { poll_id := "p1", username := some "x", option_ids := [0, 1] }

def c1EventSingle : PollAnswer :=
  { poll_id := "p1", username := some "x", option_ids := [1] }

def c1PollAfter : PollData :=
  { question := "q", options := ["Yes", "No"], votes := [(1, ["@x"])] }

lemma findLastDateColumnGo_isSome_blank (i : Nat) (prev : Option String) :
    ∀ values : List (Option String),
      (findLastDateColumnGo i prev values).isSome →
      ∃ v ∈ values, isBlankCell v = true := by
  intro values
  induction values generalizing i prev with
  | nil => simp [findLastDateColumnGo]
  | cons v rest ih =>
    intro hsome
    rw [findLastDateColumnGo] at hsome
    by_cases hb : isBlankCell v
    · exact ⟨v, List.mem_cons_self _ _, hb⟩
    · simp only [hb, if_neg, Bool.false_eq_true, if_false] at hsome
      obtain ⟨w, hw, hwb⟩ := ih _ _ hsome
      exact ⟨w, List.mem_cons_of_mem _ hw, hwb⟩

lemma findLastDateColumnGo_none_of_nonblank (i : Nat) (prev : Option String)
    (values : List (Option String))
    (h : ∀ v ∈ values, isBlankCell v = false) :
    findLastDateColumnGo i prev values = none := by
  induction values generalizing i prev with
  | nil => rfl
  | cons v rest ih =>
    rw [findLastDateColumnGo]
    have hv := h v (List.mem_cons_self _ _)
    simp only [hv, Bool.false_eq_true, if_false]
    exact ih _ _ (fun w hw => h w (List.mem_cons_of_mem _ hw))

lemma writeZerosStore_ok (store : Store) (rows : List (String × Nat))
    (override : Bool) (evs : List ExistingValue)
    (hev : store.existingVals = Except.ok evs)
    (hw : store.writeOk = Except.ok ()) :
    ∃ res, writeZerosStore store rows override = Except.ok res := by
  unfold writeZerosStore
  by_cases h0 : rows.length = 0
  · refine ⟨{ updated := 0, notFound := [] }, ?_⟩
    simp [h0]
  · cases override <;>
      simp only [h0, if_false, Bool.false_eq_true, if_true, hev, hw] <;>
      first
        | exact ⟨_, rfl⟩
        | (split <;> exact ⟨_, rfl⟩)

/-- On a successful store, `writeZerosAndRespond` issues exactly the
requested write call and resets the session. -/
lemma writeZerosAndRespond_spec (store : Store) (s : SessionData)
    (rows : List (String × Nat)) (column : String) (override : Bool)
    (skipped : List String) (evs : List ExistingValue)
    (hev : store.existingVals = Except.ok evs)
    (hw : store.writeOk = Except.ok ()) :
    ∃ out, writeZerosAndRespond store s rows column override skipped = Except.ok out
      ∧ out.writes = [{ rows := rows, column := column,
                        override := override, skipped := skipped }]
      ∧ out.session = resetSession s := by
  obtain ⟨res, hres⟩ := writeZerosStore_ok store rows override evs hev hw
  unfold writeZerosAndRespond
  rw [hres]
  exact ⟨_, rfl, rfl, rfl⟩

/-- `resetSession` depends only on `columnMatches`, the one field this
revision's reset leaves alone. -/
lemma resetSession_congr (s t : SessionData) (h : s.columnMatches = t.columnMatches) :
    resetSession s = resetSession t := by
  simp only [resetSession]
  rw [h]

lemma writeZerosStore_err (store : Store) (rows : List (String × Nat))
    (override : Bool) (e : String) (hrows : rows ≠ [])
    (hev : store.existingVals = Except.ok [])
    (hw : store.writeOk = Except.error e) :
    writeZerosStore store rows override = Except.error e := by
  have h0 : ¬ rows.length = 0 := by
    simpa [List.length_eq_zero] using hrows
  unfold writeZerosStore
  cases override <;> simp [h0, hev, hw, List.filter_true]

/-! ## Association-list and voter-set lemmas -/

lemma lookup_cons {α β : Type} [BEq α] (k a : α) (b : β) (l : List (α × β)) :
    List.lookup k ((a, b) :: l) = if k == a then some b else List.lookup k l := by
  simp only [List.lookup]
  cases k == a <;> simp

lemma lookup_map_value {β γ : Type} (f : β → γ) (l : List (Nat × β)) (k : Nat) :
    (l.map (fun kv => (kv.1, f kv.2))).lookup k = (l.lookup k).map f := by
  induction l with
  | nil => rfl
  | cons kv rest ih =>
    obtain ⟨a, b⟩ := kv
    simp only [List.map_cons]
    rw [lookup_cons, lookup_cons]
    by_cases h : k == a
    · simp [h]
    · simp [h, ih]

lemma votersFor_cons (a : Nat) (b : List String) (rest : List (Nat × List String))
    (k : Nat) :
    votersFor ((a, b) :: rest) k = if k == a then b else votersFor rest k := by
  unfold votersFor
  rw [lookup_cons]
  by_cases h : k == a <;> simp [h]

lemma votersFor_removeVoterAll_self (vs : List (Nat × List String)) (u : String)
    (k : Nat) : u ∉ votersFor (removeVoterAll vs u) k := by
  unfold votersFor removeVoterAll
  rw [lookup_map_value]
  cases h : vs.lookup k with
  | none => simp [h]
  | some l => simp [h, List.mem_filter]

lemma contains_eq_true_iff (l : List String) (w : String) :
    l.contains w = true ↔ w ∈ l := by
  exact List.elem_iff

lemma contains_congr (l l' : List String) (w : String) (h : w ∈ l ↔ w ∈ l') :
    l.contains w = l'.contains w := by
  by_cases hm : w ∈ l
  · rw [(contains_eq_true_iff l w).mpr hm, (contains_eq_true_iff l' w).mpr (h.mp hm)]
  · have h1 : l.contains w = false := by
      rw [Bool.eq_false_iff]
      intro hc
      exact hm ((contains_eq_true_iff l w).mp hc)
    have h2 : l'.contains w = false := by
      rw [Bool.eq_false_iff]
      intro hc
      exact hm (h.mpr ((contains_eq_true_iff l' w).mp hc))
    rw [h1, h2]

lemma contains_filter_ne_self (l : List String) (u : String) :
    (l.filter (fun x => x ≠ u)).contains u = false := by
  rw [Bool.eq_false_iff]
  intro hc
  have := (contains_eq_true_iff _ u).mp hc
  simp [List.mem_filter] at this

lemma contains_filter_ne_other (l : List String) (u w : String) (hw : w ≠ u) :
    (l.filter (fun x => x ≠ u)).contains w = l.contains w :=
  contains_congr _ _ _ (by simp [List.mem_filter, hw])

lemma mem_setAdd_self (l : List String) (u : String) : u ∈ setAdd l u := by
  unfold setAdd
  by_cases h : l.contains u
  · simp only [h, if_true]
    exact (contains_eq_true_iff l u).mp h
  · have hm : u ∉ l := fun hmem => h ((contains_eq_true_iff l u).mpr hmem)
    simp [h, hm]

lemma mem_setAdd_iff (l : List String) (u w : String) :
    w ∈ setAdd l u ↔ (w ∈ l ∨ w = u) := by
  unfold setAdd
  by_cases h : l.contains u
  · simp only [h, if_true]
    constructor
    · exact Or.inl
    · rintro (hh | rfl)
      · exact hh
      · exact (contains_eq_true_iff l w).mp h
  · have hm : u ∉ l := fun hmem => h ((contains_eq_true_iff l u).mpr hmem)
    simp [h, hm, List.mem_append]

lemma contains_setAdd_other (l : List String) (u w : String) (hw : w ≠ u) :
    (setAdd l u).contains w = l.contains w :=
  contains_congr _ _ _ (by rw [mem_setAdd_iff]; simp [hw])

lemma votesAdd_cons_self (a : Nat) (b : List String)
    (rest : List (Nat × List String)) (u : String) :
    votesAdd ((a, b) :: rest) a u = (a, setAdd b u) :: rest := by
  simp [votesAdd]

lemma votesAdd_cons_ne (a : Nat) (b : List String)
    (rest : List (Nat × List String)) (optionId : Nat) (u : String)
    (h : a ≠ optionId) :
    votesAdd ((a, b) :: rest) optionId u = (a, b) :: votesAdd rest optionId u := by
  simp [votesAdd, h]

lemma mem_votersFor_votesAdd (vs : List (Nat × List String)) (optionId : Nat)
    (u : String) (k : Nat) :
    u ∈ votersFor (votesAdd vs optionId u) k ↔ (k = optionId ∨ u ∈ votersFor vs k) := by
  induction vs with
  | nil =>
    simp only [votesAdd]
    rw [votersFor_cons]
    by_cases h : k = optionId
    · subst h
      simp
    · have hb : (k == optionId) = false := by simp [h]
      simp [hb, h, votersFor, List.lookup]
  | cons kv rest ih =>
    obtain ⟨a, b⟩ := kv
    by_cases h1 : a = optionId
    · subst h1
      rw [votesAdd_cons_self, votersFor_cons, votersFor_cons]
      by_cases h2 : k = a
      · subst h2
        simp [mem_setAdd_iff]
      · have hb : (k == a) = false := by simp [h2]
        simp [hb, h2]
    · rw [votesAdd_cons_ne _ _ _ _ _ h1, votersFor_cons, votersFor_cons]
      by_cases h2 : k = a
      · subst h2
        simp [h1]
      · have hb : (k == a) = false := by simp [h2]
        simp [hb, ih]

lemma mem_votersFor_foldAdd (ids : List Nat) (vs : List (Nat × List String))
    (u : String) (k : Nat) :
    u ∈ votersFor (ids.foldl (fun acc i => votesAdd acc i u) vs) k
      ↔ (k ∈ ids ∨ u ∈ votersFor vs k) := by
  induction ids generalizing vs with
  | nil => simp
  | cons i rest ih =>
    simp only [List.foldl_cons]
    rw [ih, mem_votersFor_votesAdd]
    simp [List.mem_cons]
    tauto

/-- After one event's vote update, the voter is a member of exactly
the option indices the event carried. -/
lemma mem_votersFor_newVotesFor (votes : List (Nat × List String))
    (u : String) (ids : List Nat) (k : Nat) :
    u ∈ votersFor (newVotesFor votes u ids) k ↔ k ∈ ids := by
  unfold newVotesFor
  by_cases hids : ids = []
  · subst hids
    simp [votersFor_removeVoterAll_self votes u k]
  · have hpos : ids.length > 0 := List.length_pos.mpr hids
    simp only [hpos, gt_iff_lt, if_true]
    rw [mem_votersFor_foldAdd]
    simp [votersFor_removeVoterAll_self votes u k]

lemma pollsSet_cons_self (a : String) (b : PollData)
    (rest : List (String × PollData)) (pd' : PollData) :
    pollsSet ((a, b) :: rest) a pd' = (a, pd') :: rest := by
  simp [pollsSet]

lemma pollsSet_cons_ne (a : String) (b : PollData)
    (rest : List (String × PollData)) (pollId : String) (pd' : PollData)
    (h : a ≠ pollId) :
    pollsSet ((a, b) :: rest) pollId pd' = (a, b) :: pollsSet rest pollId pd' := by
  simp [pollsSet, h]

lemma lookup_pollsSet_self (polls : List (String × PollData)) (pollId : String)
    (pd' : PollData) (h : (polls.lookup pollId).isSome) :
    (pollsSet polls pollId pd').lookup pollId = some pd' := by
  induction polls with
  | nil => simp [List.lookup] at h
  | cons kv rest ih =>
    obtain ⟨a, b⟩ := kv
    by_cases h1 : a = pollId
    · subst h1
      rw [pollsSet_cons_self, lookup_cons]
      simp
    · rw [pollsSet_cons_ne _ _ _ _ _ h1, lookup_cons]
      have hb : (pollId == a) = false := by
        simp
        exact fun hh => h1 hh.symm
      rw [lookup_cons] at h
      rw [hb] at h ⊢
      simp only [Bool.false_eq_true, if_false] at h ⊢
      exact ih h

lemma mem_pollsSet (polls : List (String × PollData)) (pollId : String)
    (pd' : PollData) :
    ∀ p ∈ pollsSet polls pollId pd', p ∈ polls ∨ p.2 = pd' := by
  induction polls with
  | nil => simp [pollsSet]
  | cons kv rest ih =>
    intro p hp
    by_cases h1 : kv.1 = pollId
    · simp only [pollsSet, if_pos h1] at hp
      rcases List.mem_cons.mp hp with rfl | hmem
      · exact Or.inr rfl
      · exact Or.inl (List.mem_cons_of_mem _ hmem)
    · simp only [pollsSet, if_neg h1] at hp
      rcases List.mem_cons.mp hp with rfl | hmem
      · exact Or.inl (List.mem_cons_self _ _)
      · rcases ih p hmem with hl | hr
        · exact Or.inl (List.mem_cons_of_mem _ hl)
        · exact Or.inr hr

lemma lookup_some_mem {α β : Type} [BEq α] (l : List (α × β)) (k : α) (v : β)
    (h : l.lookup k = some v) : ∃ a, (a, v) ∈ l := by
  induction l with
  | nil => simp [List.lookup] at h
  | cons kv rest ih =>
    obtain ⟨a, b⟩ := kv
    rw [lookup_cons] at h
    by_cases hb : k == a
    · rw [hb] at h
      simp only [if_true] at h
      exact ⟨a, by simp [Option.some_inj.mp h]⟩
    · simp only [hb, Bool.false_eq_true, if_false] at h
      obtain ⟨a', hm⟩ := ih h
      exact ⟨a', List.mem_cons_of_mem _ hm⟩

/-! ## Claim theorems -/

/-- C9: `nextColumn` implements the base-26, 1-indexed-digit successor
on column letters — whenever the decoded index is at least -1 the
successor's index is one greater — and in particular
`nextColumn("Z") = "AA"`, `nextColumn("O") = "P"`,
`nextColumn("AZ") = "BA"`. -/
theorem nextColumn_base26_successor :
    (∀ s : String, -1 ≤ columnLetterToIndex s →
        columnLetterToIndex (getNextColumnLetter s) = columnLetterToIndex s + 1)
    ∧ getNextColumnLetter "Z" = "AA"
    ∧ getNextColumnLetter "O" = "P"
    ∧ getNextColumnLetter "AZ" = "BA" :=
  ⟨fun s h => columnLetterToIndex_getNextColumnLetter s h,
   by decide, by decide, by decide⟩

/-- Witness for C9 at the concrete column "Q". -/
theorem nextColumn_base26_successor_witness :
    (-1 ≤ columnLetterToIndex "Q")
    ∧ columnLetterToIndex (getNextColumnLetter "Q") = columnLetterToIndex "Q" + 1 :=
  ⟨by decide, nextColumn_base26_successor.1 "Q" (by decide)⟩

/-- C2: on header-row values `["Sep 7", "Sep 14", "", ...]` read from
column F, `findLastDateColumn` returns the candidate
`{column: "G", date: "Sep 14"}` — the last occupied column before the
first blank, whatever follows the blank. -/
theorem findLastDateColumn_stops_at_first_blank (rest : List (Option String)) :
    findLastDateColumn ([some "Sep 7", some "Sep 14", some ""] ++ rest)
      = some { column := "G", date := "Sep 14" } := by
  have h7 : isBlankCell (some "Sep 7") = false := by decide
  have h14 : isBlankCell (some "Sep 14") = false := by decide
  have hb : isBlankCell (some "") = true := by decide
  simp only [findLastDateColumn, List.cons_append, List.nil_append,
    findLastDateColumnGo, h7, h14, hb, Bool.false_eq_true, if_false, if_true]
  decide

/-- Witness for C2, instantiating the tail with further occupied
columns: detection still reports column G, not the rightmost occupied
column. -/
theorem findLastDateColumn_stops_at_first_blank_witness :
    findLastDateColumn [some "Sep 7", some "Sep 14", some "", some "Sep 21"]
      = some { column := "G", date := "Sep 14" } :=
  findLastDateColumn_stops_at_first_blank [some "Sep 21"]

/-- C10: when the returned header-row run contains no blank cell —
in particular when the occupied run simply ends with no trailing blank
entry — `findLastDateColumn` returns null even though occupied date
columns exist, and the engine then reports that no date columns were
found and offers to create a new column at the configured first data
column; a candidate is produced only when some returned cell is
blank. -/
theorem findLastDateColumn_null_without_blank :
    (∀ values : List (Option String),
        (∀ v ∈ values, isBlankCell v = false) →
        findLastDateColumn values = none
        ∧ ∀ (store : Store) (s : SessionData),
            store.headerRow = Except.ok values →
            startColumnDetectionFlow store s =
              { session := { s with
                  state := BotState.awaiting_new_column_choice
                  targetColumn := some SHEET_DATA_FIRST_COLUMN
                  isNewColumn := some true }
                replies := [Reply.detecting,
                  Reply.noDateColumns SHEET_DATA_FIRST_COLUMN]
                writes := [] })
    ∧ ∀ values : List (Option String),
        (findLastDateColumn values).isSome →
        ∃ v ∈ values, isBlankCell v = true := by
  constructor
  · intro values h
    have hnone : findLastDateColumn values = none :=
      findLastDateColumnGo_none_of_nonblank 0 none values h
    refine ⟨hnone, ?_⟩
    intro store s hsr
    simp [startColumnDetectionFlow, hsr, hnone]
  · intro values hsome
    exact findLastDateColumnGo_isSome_blank 0 none values hsome

/-- Witness for C10: a fully occupied run `["Sep 7", "Sep 14"]` (no
trailing blank) yields no candidate, and the engine offers to create
column F. -/
theorem findLastDateColumn_null_without_blank_witness :
    findLastDateColumn [some "Sep 7", some "Sep 14"] = none
    ∧ startColumnDetectionFlow storeOccupied initialSession =
        { session := { initialSession with
            state := BotState.awaiting_new_column_choice
            targetColumn := some SHEET_DATA_FIRST_COLUMN
            isNewColumn := some true }
          replies := [Reply.detecting, Reply.noDateColumns SHEET_DATA_FIRST_COLUMN]
          writes := [] } :=
  ⟨(findLastDateColumn_null_without_blank.1 [some "Sep 7", some "Sep 14"]
      (by decide)).1,
   (findLastDateColumn_null_without_blank.1 [some "Sep 7", some "Sep 14"]
      (by decide)).2 storeOccupied initialSession (by rfl)⟩

/-- C7: in each state that requires a yes/no answer, a message that
does not parse as yes or no produces only a re-prompt: the session
(state and every other field) is returned unchanged and nothing is
written. -/
theorem malformed_yes_no_only_reprompts :
    ∀ (store : Store) (s : SessionData) (text : String),
      parseYesNo text = none →
      (s.state = BotState.awaiting_column_confirmation →
        handleColumnConfirmation store s text
          = some { session := s, replies := [Reply.invalidYesNo], writes := [] })
      ∧ (s.state = BotState.awaiting_new_column_choice →
        handleNewColumnChoice s text
          = some { session := s, replies := [Reply.invalidYesNo], writes := [] })
      ∧ (s.state = BotState.awaiting_player_count_confirmation →
        handlePlayerCountConfirmation store s text
          = some { session := s, replies := [Reply.invalidYesNo], writes := [] })
      ∧ (s.state = BotState.awaiting_override_confirmation →
        handleOverrideConfirmation store s text
          = some { session := s, replies := [Reply.invalidYesNo], writes := [] }) := by
  intro store s text h
  refine ⟨?_, ?_, ?_, ?_⟩ <;> intro hst
  · simp [handleColumnConfirmation, hst, h]
  · simp [handleNewColumnChoice, hst, h]
  · simp [handlePlayerCountConfirmation, hst, h]
  · simp [handleOverrideConfirmation, hst, h]

/-- Witness for C7 at the input "maybe" in all four yes/no states. -/
theorem malformed_yes_no_only_reprompts_witness :
    parseYesNo "maybe" = none
    ∧ handleColumnConfirmation storeBase sessionConfirmG "maybe"
        = some { session := sessionConfirmG, replies := [Reply.invalidYesNo], writes := [] }
    ∧ handleNewColumnChoice sessionNewChoice "maybe"
        = some { session := sessionNewChoice, replies := [Reply.invalidYesNo], writes := [] }
    ∧ handlePlayerCountConfirmation storeBase sessionPlayerConf "maybe"
        = some { session := sessionPlayerConf, replies := [Reply.invalidYesNo], writes := [] }
    ∧ handleOverrideConfirmation storeBase sessionOverride "maybe"
        = some { session := sessionOverride, replies := [Reply.invalidYesNo], writes := [] } :=
  ⟨by decide,
   (malformed_yes_no_only_reprompts storeBase sessionConfirmG "maybe" (by decide)).1
     (by decide),
   (malformed_yes_no_only_reprompts storeBase sessionNewChoice "maybe" (by decide)).2.1
     (by decide),
   (malformed_yes_no_only_reprompts storeBase sessionPlayerConf "maybe" (by decide)).2.2.1
     (by decide),
   (malformed_yes_no_only_reprompts storeBase sessionOverride "maybe" (by decide)).2.2.2
     (by decide)⟩

/-- C5 (counterexample to the claim as stated): "y" is a
syntactically valid column-letter token, yet in
`awaiting_column_confirmation` the engine parses it as an affirmative
answer first — the detected column "G" stays the target and column
"Y" is not adopted. -/
theorem columnLetterToken_yes_precedence_cex :
    columnLetterPattern (jsTrim "y") = true
    ∧ ((handleColumnConfirmationSearch storeBase sessionConfirmG "y").map
        (fun out => out.session.targetColumn)) = some (some "G")
    ∧ ((handleColumnConfirmationSearch storeBase sessionConfirmG "y").map
        (fun out => out.session.targetColumn)) ≠ some (some "Y") := by
  refine ⟨by decide, by decide, by decide⟩

/-- C5 (amended): in `awaiting_column_confirmation`, a syntactically
valid column-letter token that does not also parse as a yes/no answer
is adopted directly (uppercased) as the target, confirmation is
skipped, and the engine proceeds to the metadata phase. -/
theorem columnLetterToken_adopted_when_not_yes_no :
    ∀ (store : Store) (s : SessionData) (text : String),
      s.state = BotState.awaiting_column_confirmation →
      parseYesNo (jsTrim text) = none →
      columnLetterPattern (jsTrim text) = true →
      handleColumnConfirmationSearch store s text
        = some (proceedWithMetadataCollection store
            { s with
              targetColumn := some (jsToUpper (jsTrim text))
              isNewColumn := some false }) := by
  intro store s text hst hyn hcol
  simp [handleColumnConfirmationSearch, hst, hyn, hcol]

/-- Witness for C5 (amended) at the token "fa": column FA is adopted
and the metadata phase runs. -/
theorem columnLetterToken_adopted_when_not_yes_no_witness :
    parseYesNo (jsTrim "fa") = none
    ∧ columnLetterPattern (jsTrim "fa") = true
    ∧ handleColumnConfirmationSearch storeBase sessionConfirmG "fa"
        = some (proceedWithMetadataCollection storeBase
            { sessionConfirmG with
              targetColumn := some (jsToUpper (jsTrim "fa"))
              isNewColumn := some false }) :=
  ⟨by decide, by decide,
   columnLetterToken_adopted_when_not_yes_no storeBase sessionConfirmG "fa"
     (by decide) (by decide) (by decide)⟩

/-- C4: the override gate.  With no conflicts the write happens
immediately with override and an empty skip-list and the session
resets to idle; with conflicts the list is stored and the session
awaits override confirmation, from which yes writes with override, no
writes without override skipping the conflicting identities, and
either answer resets to idle. -/
theorem override_gate :
    (∀ (store : Store) (s : SessionData) (rows : List (String × Nat))
        (c : String) (evs : List ExistingValue),
        s.targetColumn = some c → c ≠ "" →
        store.existingVals = Except.ok evs →
        store.writeOk = Except.ok () →
        (evs = [] →
          ∃ out, checkOverridesAndWrite store s rows = Except.ok out
            ∧ out.writes = [{ rows := rows, column := c,
                              override := true, skipped := [] }]
            ∧ out.session = resetSession s
            ∧ out.session.state = BotState.idle)
        ∧ (evs ≠ [] →
          checkOverridesAndWrite store s rows = Except.ok
            { session := { s with
                column := some c
                nicknameRowsEntries := some rows
                existingValuesEntries := some evs
                state := BotState.awaiting_override_confirmation }
              replies := [Reply.overridePrompt c evs]
              writes := [] }))
    ∧ ∀ (store : Store) (s : SessionData) (text : String)
        (rows : List (String × Nat)) (c : String) (evs : List ExistingValue),
        s.state = BotState.awaiting_override_confirmation →
        s.column = some c → c ≠ "" →
        s.nicknameRowsEntries = some rows →
        s.existingValuesEntries = some evs →
        store.existingVals = Except.ok evs →
        store.writeOk = Except.ok () →
        (parseYesNo text = some YesNo.yes →
          ∃ out, handleOverrideConfirmation store s text = some out
            ∧ out.writes = [{ rows := rows, column := c,
                              override := true, skipped := [] }]
            ∧ out.session = resetSession s
            ∧ out.session.state = BotState.idle)
        ∧ (parseYesNo text = some YesNo.no →
          ∃ out, handleOverrideConfirmation store s text = some out
            ∧ out.writes = [{ rows := rows, column := c, override := false,
                              skipped := evs.map (fun ev => ev.nickname) }]
            ∧ out.session = resetSession s
            ∧ out.session.state = BotState.idle) := by
  constructor
  · intro store s rows c evs htc hcne hev hw
    constructor
    · intro hevs
      subst hevs
      obtain ⟨out, hout, hwr, hsess⟩ :=
        writeZerosAndRespond_spec store s rows c true [] [] hev hw
      refine ⟨out, ?_, hwr, hsess, by rw [hsess]; rfl⟩
      simp only [checkOverridesAndWrite, htc, hev]
      have : (c == "") = false := by
        simp [hcne]
      simp [this, hout]
    · intro hevs
      simp only [checkOverridesAndWrite, htc, hev]
      have hc : (c == "") = false := by simp [hcne]
      have hlen : 0 < evs.length := List.length_pos.mpr hevs
      simp [hc, hlen]
  · intro store s text rows c evs hst hcol hcne hrows hevs hev hw
    have hguard : isFalsyStr (jsOrStr s.column s.targetColumn) = false := by
      simp [jsOrStr, hcol, isFalsyStr, hcne]
    constructor
    · intro hyes
      obtain ⟨out, hout, hwr, hsess⟩ :=
        writeZerosAndRespond_spec store s rows c true [] evs hev hw
      refine ⟨out, ?_, hwr, hsess, by rw [hsess]; rfl⟩
      have hbeq : (YesNo.yes == YesNo.yes) = true := by decide
      simp only [handleOverrideConfirmation, hst, hyes, hguard, hrows, hcol, hevs]
      simp [jsOrStr, isFalsyStr, hcne, hbeq, hout]
    · intro hno
      obtain ⟨out, hout, hwr, hsess⟩ :=
        writeZerosAndRespond_spec store s rows c false
          (evs.map (fun ev => ev.nickname)) evs hev hw
      refine ⟨out, ?_, hwr, hsess, by rw [hsess]; rfl⟩
      have hbeq : (YesNo.no == YesNo.yes) = false := by decide
      simp only [handleOverrideConfirmation, hst, hno, hguard, hrows, hcol, hevs]
      simp [jsOrStr, isFalsyStr, hcne, hbeq, hout]

/-- Witness for C4: the no-conflict direct write, the conflict prompt,
and both override answers, at concrete fixtures. -/
theorem override_gate_witness :
    (∃ out, checkOverridesAndWrite storeBase sessionPreWrite [("@a", 7), ("@b", 8)]
        = Except.ok out
      ∧ out.writes = [{ rows := [("@a", 7), ("@b", 8)], column := "H",
                        override := true, skipped := [] }]
      ∧ out.session = resetSession sessionPreWrite
      ∧ out.session.state = BotState.idle)
    ∧ checkOverridesAndWrite storeConflict sessionPreWrite [("@a", 7), ("@b", 8)]
        = Except.ok
          { session := { sessionPreWrite with
              column := some "H"
              nicknameRowsEntries := some [("@a", 7), ("@b", 8)]
              existingValuesEntries := some [{ nickname := "@a", value := "5" }]
              state := BotState.awaiting_override_confirmation }
            replies := [Reply.overridePrompt "H" [{ nickname := "@a", value := "5" }]]
            writes := [] }
    ∧ (∃ out, handleOverrideConfirmation storeConflict sessionOverride "yes" = some out
      ∧ out.writes = [{ rows := [("@a", 7), ("@b", 8)], column := "H",
                        override := true, skipped := [] }]
      ∧ out.session = resetSession sessionOverride
      ∧ out.session.state = BotState.idle)
    ∧ (∃ out, handleOverrideConfirmation storeConflict sessionOverride "no" = some out
      ∧ out.writes = [{ rows := [("@a", 7), ("@b", 8)], column := "H",
                        override := false, skipped := ["@a"] }]
      ∧ out.session = resetSession sessionOverride
      ∧ out.session.state = BotState.idle) := by
  refine ⟨?_, ?_, ?_, ?_⟩
  · exact (override_gate.1 storeBase sessionPreWrite [("@a", 7), ("@b", 8)] "H" []
      (by rfl) (by decide) (by rfl) (by rfl)).1 rfl
  · exact (override_gate.1 storeConflict sessionPreWrite [("@a", 7), ("@b", 8)] "H"
      [{ nickname := "@a", value := "5" }]
      (by rfl) (by decide) (by rfl) (by rfl)).2 (by decide)
  · exact (override_gate.2 storeConflict sessionOverride "yes" [("@a", 7), ("@b", 8)]
      "H" [{ nickname := "@a", value := "5" }]
      (by rfl) (by rfl) (by decide) (by rfl) (by rfl) (by rfl) (by rfl)).1 (by decide)
  · exact (override_gate.2 storeConflict sessionOverride "no" [("@a", 7), ("@b", 8)]
      "H" [{ nickname := "@a", value := "5" }]
      (by rfl) (by rfl) (by decide) (by rfl) (by rfl) (by rfl) (by rfl)).2 (by decide)

/-- C6: every failing backing-store call made during the flow is
caught at the call, answered with a user-visible error description,
and the session is reset to idle with every field cleared — one
conjunct per call site: the header-row read, the column search, the
metadata read, the nickname-row read, the conflict check (its uncaught
propagation out of `checkOverridesAndWrite` and its catches in
`proceedWithPlayerCountCheck` and `handlePlayerCountConfirmation`),
the metadata writes of `handleDateName`, `handleCost`,
`handlePlayerCount` and `handlePlayerCountConfirmation`, and the final
batch write; and `resetSession` clears every field (only
`columnMatches`, untouched by this revision of `resetSession`,
survives). -/
theorem store_failure_replies_and_resets :
    (∀ (store : Store) (s : SessionData) (e : String),
        store.headerRow = Except.error e →
        startColumnDetectionFlow store s =
          { session := resetSession s
            replies := [Reply.detecting, Reply.apiError "detecting column" e]
            writes := [] })
    ∧ (∀ (store : Store) (s : SessionData) (text e : String),
        s.state = BotState.awaiting_column_confirmation →
        parseYesNo (jsTrim text) = none →
        columnLetterPattern (jsTrim text) = false →
        store.search = Except.error e →
        handleColumnConfirmationSearch store s text = some
          { session := resetSession s
            replies := [Reply.apiError "searching for column" e]
            writes := [] })
    ∧ (∀ (store : Store) (s : SessionData) (e : String),
        isFalsyStr s.targetColumn = false →
        store.metadata = Except.error e →
        proceedWithMetadataCollection store s =
          { session := resetSession s
            replies := [Reply.apiError "checking column metadata" e]
            writes := [] })
    ∧ (∀ (store : Store) (s : SessionData) (e : String),
        isFalsyStr s.targetColumn = false →
        s.usernames ≠ [] →
        store.nickRows = Except.error e →
        proceedWithPlayerCountCheck store s =
          { session := resetSession s
            replies := [Reply.checkingSheet, Reply.apiError "processing usernames" e]
            writes := [] })
    ∧ (∀ (store : Store) (s : SessionData) (rows : List (String × Nat))
        (c e : String),
        s.targetColumn = some c → c ≠ "" →
        store.existingVals = Except.error e →
        checkOverridesAndWrite store s rows = Except.error e)
    ∧ (∀ (store : Store) (s : SessionData) (rows : List (String × Nat))
        (c : String) (pc : Int) (e : String),
        s.targetColumn = some c → c ≠ "" →
        s.usernames ≠ [] →
        s.playerCount = some pc →
        store.nickRows = Except.ok rows → rows ≠ [] →
        store.existingVals = Except.error e →
        proceedWithPlayerCountCheck store s =
          { session := resetSession s
            replies := [Reply.checkingSheet, Reply.apiError "processing usernames" e]
            writes := [] })
    ∧ (∀ (store : Store) (s : SessionData) (text e : String),
        s.state = BotState.awaiting_date_name →
        jsTrim text ≠ "" →
        isFalsyStr s.targetColumn = false →
        store.metaWriteOk = Except.error e →
        handleDateName store s text = some
          { session := resetSession s
            replies := [Reply.apiError "writing date" e]
            writes := [] })
    ∧ (∀ (store : Store) (s : SessionData) (text : String) (cost : Int)
        (e : String),
        s.state = BotState.awaiting_cost →
        jsParseFloat text = some cost → ¬ cost < 0 →
        isFalsyStr s.targetColumn = false →
        store.metaWriteOk = Except.error e →
        handleCost store s text = some
          { session := resetSession s
            replies := [Reply.apiError "writing cost" e]
            writes := [] })
    ∧ (∀ (store : Store) (s : SessionData) (text : String) (count : Int)
        (rows : List (String × Nat)) (e : String),
        s.state = BotState.awaiting_player_count →
        jsParseInt text = some count → ¬ count < 0 →
        isFalsyStr s.targetColumn = false →
        s.nicknameRowsEntries = some rows →
        store.metaWriteOk = Except.error e →
        handlePlayerCount store s text = some
          { session := resetSession s
            replies := [Reply.apiError "writing player count" e]
            writes := [] })
    ∧ (∀ (store : Store) (s : SessionData) (text : String)
        (rows : List (String × Nat)) (e : String),
        s.state = BotState.awaiting_player_count_confirmation →
        parseYesNo text = some YesNo.yes →
        isFalsyStr s.targetColumn = false →
        s.nicknameRowsEntries = some rows →
        store.metaWriteOk = Except.error e →
        handlePlayerCountConfirmation store s text = some
          { session := resetSession s
            replies := [Reply.apiError "writing player count or checking overrides" e]
            writes := [] })
    ∧ (∀ (store : Store) (s : SessionData) (text : String)
        (rows : List (String × Nat)) (c e : String),
        s.state = BotState.awaiting_player_count_confirmation →
        parseYesNo text = some YesNo.yes →
        s.targetColumn = some c → c ≠ "" →
        s.nicknameRowsEntries = some rows →
        store.metaWriteOk = Except.ok () →
        store.existingVals = Except.error e →
        handlePlayerCountConfirmation store s text = some
          { session := resetSession s
            replies := [Reply.apiError "writing player count or checking overrides" e]
            writes := [] })
    ∧ (∀ (store : Store) (s : SessionData) (text : String)
        (rows : List (String × Nat)) (c : String) (a : YesNo) (e : String),
        s.state = BotState.awaiting_override_confirmation →
        parseYesNo text = some a →
        s.column = some c → c ≠ "" →
        s.nicknameRowsEntries = some rows → rows ≠ [] →
        store.existingVals = Except.ok [] →
        store.writeOk = Except.error e →
        ∃ out, handleOverrideConfirmation store s text = some out
          ∧ out.session = resetSession s
          ∧ Reply.apiError "updating sheet" e ∈ out.replies
          ∧ out.writes = [])
    ∧ ∀ s : SessionData,
        resetSession s = { initialSession with columnMatches := s.columnMatches } := by
  refine ⟨?_, ?_, ?_, ?_, ?_, ?_, ?_, ?_, ?_, ?_, ?_, ?_, ?_⟩
  · intro store s e h
    simp [startColumnDetectionFlow, h, withReply, handleApiErrorOut]
  · intro store s text e hst hyn hcol hsearch
    simp [handleColumnConfirmationSearch, hst, hyn, hcol, hsearch, handleApiErrorOut]
  · intro store s e hfa h
    simp [proceedWithMetadataCollection, hfa, h, handleApiErrorOut]
  · intro store s e hfa husers hnick
    have hlen0 : (s.usernames.length == 0) = false := by
      simp [List.length_eq_zero, husers]
    simp [proceedWithPlayerCountCheck, hfa, hlen0, hnick, withReply,
      handleApiErrorOut]
  · intro store s rows c e htc hcne hev
    have hc : (c == "") = false := by simp [hcne]
    simp [checkOverridesAndWrite, htc, hc, hev]
  · intro store s rows c pc e htc hcne husers hpc hnick hrne hev
    have hfa : isFalsyStr s.targetColumn = false := by
      simp [isFalsyStr, htc, hcne]
    have hlen0 : (s.usernames.length == 0) = false := by
      simp [List.length_eq_zero, husers]
    have hrlen : ¬ rows.length = 0 := by
      simpa [List.length_eq_zero] using hrne
    have hc : (c == "") = false := by simp [hcne]
    have hcw : checkOverridesAndWrite store s rows = Except.error e := by
      simp [checkOverridesAndWrite, htc, hc, hev]
    simp [proceedWithPlayerCountCheck, hfa, hlen0, hnick, hrlen, hpc, hcw,
      withReply, handleApiErrorOut]
  · intro store s text e hst htr hfa hmw
    have h1 : (jsTrim text == "") = false := by simp [htr]
    simp [handleDateName, hst, h1, hfa, hmw, handleApiErrorOut]
    exact resetSession_congr _ _ rfl
  · intro store s text cost e hst hpf hcn hfa hmw
    simp [handleCost, hst, hpf, hcn, hfa, hmw, handleApiErrorOut]
    exact resetSession_congr _ _ rfl
  · intro store s text count rows e hst hpi hcn hfa hrows hmw
    simp [handlePlayerCount, hst, hpi, hcn, hfa, hrows, hmw, handleApiErrorOut]
    exact resetSession_congr _ _ rfl
  · intro store s text rows e hst hyn hfa hrows hmw
    simp [handlePlayerCountConfirmation, hst, hyn, hfa, hrows, hmw,
      handleApiErrorOut]
    exact resetSession_congr _ _ rfl
  · intro store s text rows c e hst hyn htc hcne hrows hmw hev
    have hfa : isFalsyStr s.targetColumn = false := by
      simp [isFalsyStr, htc, hcne]
    have hc : (c == "") = false := by simp [hcne]
    have hcw : ∀ s' : SessionData, s'.targetColumn = some c →
        checkOverridesAndWrite store s' rows = Except.error e := by
      intro s' htc'
      simp [checkOverridesAndWrite, htc', hc, hev]
    have hfc : isFalsyStr (some c) = false := by simp [isFalsyStr, hcne]
    simp [handlePlayerCountConfirmation, hst, hyn, hfa, hfc, hrows, hmw, hcw, htc,
      handleApiErrorOut]
    exact resetSession_congr _ _ rfl
  · intro store s text rows c a e hst hyn hcol hcne hrows hrne hev hw
    have hc : (c == "") = false := by simp [hcne]
    have herrAll : ∀ (ov : Bool) (skipped : List String),
        writeZerosAndRespond store s rows c ov skipped = Except.error e := by
      intro ov skipped
      unfold writeZerosAndRespond
      rw [writeZerosStore_err store rows ov e hrne hev hw]
    refine ⟨handleApiErrorOut s "updating sheet" e, ?_, rfl,
      by simp [handleApiErrorOut], rfl⟩
    simp [handleOverrideConfirmation, hst, hyn, hcol, hrows, jsOrStr,
      isFalsyStr, hc, herrAll]
  · intro s
    rfl

/-- Witness for C6: a "boom" failure of each backing-store call — the
header read, the column search, the metadata read, the nickname-row
read, the conflict check (propagated and caught), the four metadata
writes and the batch write — produces the error reply and a fully
reset idle session. -/
theorem store_failure_replies_and_resets_witness :
    startColumnDetectionFlow storeFailHeader initialSession
      = { session := resetSession initialSession
          replies := [Reply.detecting, Reply.apiError "detecting column" "boom"]
          writes := [] }
    ∧ handleColumnConfirmationSearch storeFailSearch sessionConfirmG "sep"
      = some { session := resetSession sessionConfirmG
               replies := [Reply.apiError "searching for column" "boom"]
               writes := [] }
    ∧ proceedWithMetadataCollection storeFailMetadata sessionPreWrite
      = { session := resetSession sessionPreWrite
          replies := [Reply.apiError "checking column metadata" "boom"]
          writes := [] }
    ∧ proceedWithPlayerCountCheck storeFailNickRows sessionPreWrite
      = { session := resetSession sessionPreWrite
          replies := [Reply.checkingSheet, Reply.apiError "processing usernames" "boom"]
          writes := [] }
    ∧ checkOverridesAndWrite storeFailExisting sessionPreWrite [("@a", 7)]
      = Except.error "boom"
    ∧ proceedWithPlayerCountCheck storeFailExistingAfterMatch sessionPreWriteCounted
      = { session := resetSession sessionPreWriteCounted
          replies := [Reply.checkingSheet, Reply.apiError "processing usernames" "boom"]
          writes := [] }
    ∧ handleDateName storeFailMetaWrite sessionDateName "Sep 7"
      = some { session := resetSession sessionDateName
               replies := [Reply.apiError "writing date" "boom"]
               writes := [] }
    ∧ handleCost storeFailMetaWrite sessionCost "50"
      = some { session := resetSession sessionCost
               replies := [Reply.apiError "writing cost" "boom"]
               writes := [] }
    ∧ handlePlayerCount storeFailMetaWrite sessionPlayerCount "5"
      = some { session := resetSession sessionPlayerCount
               replies := [Reply.apiError "writing player count" "boom"]
               writes := [] }
    ∧ handlePlayerCountConfirmation storeFailMetaWrite sessionPlayerConf "yes"
      = some { session := resetSession sessionPlayerConf
               replies := [Reply.apiError "writing player count or checking overrides" "boom"]
               writes := [] }
    ∧ handlePlayerCountConfirmation storeFailExisting sessionPlayerConf "yes"
      = some { session := resetSession sessionPlayerConf
               replies := [Reply.apiError "writing player count or checking overrides" "boom"]
               writes := [] }
    ∧ ∃ out, handleOverrideConfirmation storeFailWrite sessionOverride "yes" = some out
        ∧ out.session = resetSession sessionOverride
        ∧ Reply.apiError "updating sheet" "boom" ∈ out.replies
        ∧ out.writes = [] :=
  ⟨store_failure_replies_and_resets.1 storeFailHeader initialSession "boom" rfl,
   store_failure_replies_and_resets.2.1 storeFailSearch sessionConfirmG "sep" "boom"
     rfl (by decide) (by decide) rfl,
   store_failure_replies_and_resets.2.2.1 storeFailMetadata sessionPreWrite "boom"
     (by decide) rfl,
   store_failure_replies_and_resets.2.2.2.1 storeFailNickRows sessionPreWrite "boom"
     (by decide) (by decide) rfl,
   store_failure_replies_and_resets.2.2.2.2.1 storeFailExisting sessionPreWrite
     [("@a", 7)] "H" "boom" rfl (by decide) rfl,
   store_failure_replies_and_resets.2.2.2.2.2.1 storeFailExistingAfterMatch
     sessionPreWriteCounted [("@a", 7)] "H" 2 "boom"
     rfl (by decide) (by decide) rfl rfl (by decide) rfl,
   store_failure_replies_and_resets.2.2.2.2.2.2.1 storeFailMetaWrite sessionDateName
     "Sep 7" "boom" rfl (by decide) (by decide) rfl,
   store_failure_replies_and_resets.2.2.2.2.2.2.2.1 storeFailMetaWrite sessionCost
     "50" 50 "boom" rfl (by decide) (by decide) (by decide) rfl,
   store_failure_replies_and_resets.2.2.2.2.2.2.2.2.1 storeFailMetaWrite
     sessionPlayerCount "5" 5 [("@a", 7)] "boom"
     rfl (by decide) (by decide) (by decide) rfl rfl,
   store_failure_replies_and_resets.2.2.2.2.2.2.2.2.2.1 storeFailMetaWrite
     sessionPlayerConf "yes" [("@a", 7)] "boom"
     rfl (by decide) (by decide) rfl rfl,
   store_failure_replies_and_resets.2.2.2.2.2.2.2.2.2.2.1 storeFailExisting
     sessionPlayerConf "yes" [("@a", 7)] "H" "boom"
     rfl (by decide) rfl (by decide) rfl rfl rfl,
   store_failure_replies_and_resets.2.2.2.2.2.2.2.2.2.2.2.1 storeFailWrite
     sessionOverride "yes" [("@a", 7), ("@b", 8)] "H" YesNo.yes "boom"
     rfl (by decide) rfl (by decide) rfl (by decide) rfl rfl⟩

/-- C3: a vote-change event for a tracked poll ends with the voter's
identity a member of exactly the option indices carried by the event
(the prior selection is replaced; an empty index list retracts the
vote); an event for an untracked poll id leaves the registry
unchanged. -/
theorem pollAnswer_replaces_selection :
    (∀ (polls : List (String × PollData)) (ans : PollAnswer),
        polls.lookup ans.poll_id = none →
        handlePollAnswer polls ans = polls)
    ∧ ∀ (polls : List (String × PollData)) (ans : PollAnswer)
        (pd : PollData) (u : String),
        polls.lookup ans.poll_id = some pd →
        ans.username = some u → u ≠ "" →
        ∃ pd', (handlePollAnswer polls ans).lookup ans.poll_id = some pd'
          ∧ ∀ k : Nat, ("@" ++ u) ∈ votersFor pd'.votes k ↔ k ∈ ans.option_ids := by
  constructor
  · intro polls ans h
    simp [handlePollAnswer, h]
  · intro polls ans pd u hl hu hne
    refine ⟨{ pd with votes := newVotesFor pd.votes ("@" ++ u) ans.option_ids },
      ?_, ?_⟩
    · have hstep : handlePollAnswer polls ans
          = pollsSet polls ans.poll_id
              { pd with votes := newVotesFor pd.votes ("@" ++ u) ans.option_ids } := by
        simp [handlePollAnswer, hl, hu, hne]
      rw [hstep]
      exact lookup_pollsSet_self polls ans.poll_id _ (by simp [hl])
    · intro k
      exact mem_votersFor_newVotesFor pd.votes ("@" ++ u) ans.option_ids k

/-- Witness for C3: an untracked event is a no-op, and the tracked
event `{poll "p1", user "x", options [1]}` ends with `@x` in exactly
option 1. -/
theorem pollAnswer_replaces_selection_witness :
    (handlePollAnswer c1Polls
        { poll_id := "p2", username := some "x", option_ids := [0] } = c1Polls)
    ∧ ∃ pd', (handlePollAnswer c1Polls c1EventSingle).lookup c1EventSingle.poll_id
          = some pd'
        ∧ ∀ k : Nat, ("@" ++ "x") ∈ votersFor pd'.votes k ↔ k ∈ c1EventSingle.option_ids :=
  ⟨pollAnswer_replaces_selection.1 c1Polls
      { poll_id := "p2", username := some "x", option_ids := [0] } (by decide),
   pollAnswer_replaces_selection.2 c1Polls c1EventSingle
      { question := "q", options := ["Yes", "No"], votes := [] } "x"
      (by decide) rfl (by decide)⟩

lemma optionCount_nil (u : String) : optionCount [] u = 0 := rfl

lemma optionCount_cons (kv : Nat × List String) (rest : List (Nat × List String))
    (u : String) :
    optionCount (kv :: rest) u
      = optionCount rest u + (if kv.2.contains u then 1 else 0) := by
  simp [optionCount, List.countP_cons]

lemma optionCount_eq_zero (vs : List (Nat × List String)) (u : String)
    (h : ∀ kv ∈ vs, kv.2.contains u = false) : optionCount vs u = 0 := by
  induction vs with
  | nil => rfl
  | cons kv rest ih =>
    rw [optionCount_cons, h kv (List.mem_cons_self _ _),
      ih (fun e he => h e (List.mem_cons_of_mem _ he))]
    simp

lemma removeVoterAll_contains_false (vs : List (Nat × List String)) (u : String) :
    ∀ kv ∈ removeVoterAll vs u, kv.2.contains u = false := by
  intro kv hkv
  simp only [removeVoterAll, List.mem_map] at hkv
  obtain ⟨e, _, rfl⟩ := hkv
  exact contains_filter_ne_self e.2 u

lemma optionCount_removeVoterAll_self (vs : List (Nat × List String))
    (u : String) : optionCount (removeVoterAll vs u) u = 0 :=
  optionCount_eq_zero _ _ (removeVoterAll_contains_false vs u)

lemma optionCount_removeVoterAll_other (vs : List (Nat × List String))
    (u w : String) (hw : w ≠ u) :
    optionCount (removeVoterAll vs u) w = optionCount vs w := by
  induction vs with
  | nil => rfl
  | cons kv rest ih =>
    simp only [removeVoterAll, List.map_cons]
    rw [optionCount_cons, optionCount_cons]
    rw [show (kv.1, kv.2.filter (fun x => x ≠ u)).2.contains w = kv.2.contains w from
      contains_filter_ne_other kv.2 u w hw]
    rw [show optionCount (List.map (fun kv => (kv.1, kv.2.filter (fun x => x ≠ u))) rest) w
        = optionCount rest w from ih]

lemma optionCount_votesAdd_self (vs : List (Nat × List String)) (optionId : Nat)
    (u : String) (hall : ∀ kv ∈ vs, kv.2.contains u = false) :
    optionCount (votesAdd vs optionId u) u = 1 := by
  induction vs with
  | nil =>
    have hc : ([u].contains u) = true := (contains_eq_true_iff [u] u).mpr (by simp)
    simp [votesAdd, optionCount, List.countP_cons, hc]
  | cons kv rest ih =>
    obtain ⟨a, b⟩ := kv
    by_cases h1 : a = optionId
    · subst h1
      rw [votesAdd_cons_self, optionCount_cons]
      have hc : (setAdd b u).contains u = true :=
        (contains_eq_true_iff _ u).mpr (mem_setAdd_self b u)
      rw [optionCount_eq_zero rest u
        (fun e he => hall e (List.mem_cons_of_mem _ he))]
      simp only [hc]
      simp
    · rw [votesAdd_cons_ne _ _ _ _ _ h1, optionCount_cons]
      rw [ih (fun e he => hall e (List.mem_cons_of_mem _ he))]
      have hb : (b.contains u) = false := hall (a, b) (List.mem_cons_self _ _)
      simp only [hb]
      simp

lemma optionCount_votesAdd_other (vs : List (Nat × List String)) (optionId : Nat)
    (u w : String) (hw : w ≠ u) :
    optionCount (votesAdd vs optionId u) w = optionCount vs w := by
  induction vs with
  | nil =>
    have hc : ([u].contains w) = false := by
      rw [Bool.eq_false_iff]
      intro hcc
      have := (contains_eq_true_iff [u] w).mp hcc
      simp at this
      exact hw this
    simp only [votesAdd, optionCount, List.countP_cons, hc]
    simp [optionCount]
  | cons kv rest ih =>
    obtain ⟨a, b⟩ := kv
    by_cases h1 : a = optionId
    · subst h1
      rw [votesAdd_cons_self, optionCount_cons, optionCount_cons]
      rw [show ((a, setAdd b u).2.contains w) = b.contains w from
        contains_setAdd_other b u w hw]
    · rw [votesAdd_cons_ne _ _ _ _ _ h1, optionCount_cons, optionCount_cons, ih]

/-- One `poll_answer` event carrying at most one option index keeps
every identity in at most one option's voter set. -/
lemma handlePollAnswer_preserves_exclusive (polls : List (String × PollData))
    (ans : PollAnswer) (hlen : ans.option_ids.length ≤ 1)
    (h : ∀ p ∈ polls, ∀ u, optionCount p.2.votes u ≤ 1) :
    ∀ p ∈ handlePollAnswer polls ans, ∀ u, optionCount p.2.votes u ≤ 1 := by
  unfold handlePollAnswer
  cases hl : polls.lookup ans.poll_id with
  | none => simpa using h
  | some pd =>
    cases hu : ans.username with
    | none => simpa using h
    | some uname =>
      by_cases hue : uname = ""
      · simpa [hue] using h
      · simp only [hue, if_false]
        intro p hp u
        rcases mem_pollsSet polls ans.poll_id _ p hp with hmem | heq
        · exact h p hmem u
        · rw [heq]
          obtain ⟨a, hpd⟩ := lookup_some_mem polls ans.poll_id pd hl
          have hpdex : ∀ w, optionCount pd.votes w ≤ 1 := fun w => h (a, pd) hpd w
          show optionCount (newVotesFor pd.votes ("@" ++ uname) ans.option_ids) u ≤ 1
          unfold newVotesFor
          rcases hids : ans.option_ids with _ | ⟨k0, krest⟩
          · simp only [List.length_nil, gt_iff_lt, Nat.lt_irrefl, if_false]
            by_cases huat : u = "@" ++ uname
            · subst huat
              rw [optionCount_removeVoterAll_self]
              omega
            · rw [optionCount_removeVoterAll_other _ _ _ huat]
              exact hpdex u
          · have hkrest : krest = [] := by
              rw [hids] at hlen
              simp at hlen
              exact hlen
            subst hkrest
            simp only [List.length_cons, List.length_nil, gt_iff_lt,
              Nat.zero_lt_succ, if_true, List.foldl_cons, List.foldl_nil]
            by_cases huat : u = "@" ++ uname
            · subst huat
              rw [optionCount_votesAdd_self _ _ _
                (removeVoterAll_contains_false pd.votes _)]
            · rw [optionCount_votesAdd_other _ _ _ _ huat,
                optionCount_removeVoterAll_other _ _ _ huat]
              exact hpdex u

/-- C1 (counterexample to the claim as stated): the handler itself
never enforces exclusivity — a single vote-change event carrying two
option indices (as a multiple-answers poll would report) leaves the
identity `@x` in two options' voter sets. -/
theorem pollAnswer_multi_select_breaks_exclusivity :
    ((List.foldl handlePollAnswer c1Polls [c1EventMulti]).lookup "p1").map
      (fun pd => optionCount pd.votes "@x") = some 2 := by
  decide

/-- C1 (amended): for every tracked poll and identity, after any
sequence of vote-change events each carrying at most one option index
(which is all a single-choice poll, as this bot creates, can emit),
the identity is a member of at most one option's voter set, provided
it held in the initial registry. -/
theorem voteAggregator_exclusivity_single_choice :
    ∀ (events : List PollAnswer) (polls : List (String × PollData)),
      (∀ p ∈ polls, ∀ u, optionCount p.2.votes u ≤ 1) →
      (∀ ev ∈ events, ev.option_ids.length ≤ 1) →
      ∀ p ∈ events.foldl handlePollAnswer polls, ∀ u,
        optionCount p.2.votes u ≤ 1 := by
  intro events
  induction events with
  | nil =>
    intro polls h _
    simpa using h
  | cons ev rest ih =>
    intro polls h hev
    simp only [List.foldl_cons]
    exact ih (handlePollAnswer polls ev)
      (handlePollAnswer_preserves_exclusive polls ev
        (hev ev (List.mem_cons_self _ _)) h)
      (fun e he => hev e (List.mem_cons_of_mem _ he))

/-- Witness for C1 (amended): after the single-choice event on the
fresh poll registry, `@x` is in at most one option's set. -/
theorem voteAggregator_exclusivity_single_choice_witness :
    optionCount c1PollAfter.votes "@x" ≤ 1 :=
  voteAggregator_exclusivity_single_choice [c1EventSingle] c1Polls
    (by
      intro p hp u
      simp only [c1Polls, List.mem_singleton] at hp
      subst hp
      simp [optionCount])
    (by decide)
    ("p1", c1PollAfter) (by decide) "@x"

/-! ## Identity-matcher lemmas -/

lemma lookupOriginal_singleton (n key : String) :
    lookupOriginal [n] key = if normalizeNick n == key then some n else none := by
  unfold lookupOriginal
  simp only [List.reverse_singleton, List.find?]
  cases h : normalizeNick n == key <;> simp [h]

lemma assocSet_keys (acc : List (String × Nat)) (k : String) (v : Nat)
    (h : ∀ e ∈ acc, e.1 = k) : ∀ e ∈ assocSet acc k v, e.1 = k := by
  induction acc with
  | nil =>
    intro e he
    simp only [assocSet, List.mem_singleton] at he
    subst he
    rfl
  | cons kv rest ih =>
    intro e he
    have hk : kv.1 = k := h kv (List.mem_cons_self _ _)
    simp only [assocSet, hk, if_pos] at he
    rcases List.mem_cons.mp he with rfl | hmem
    · rfl
    · exact h e (List.mem_cons_of_mem _ hmem)

lemma assocSet_rename (acc : List (String × Nat)) (a b : String) (v : Nat)
    (h : ∀ e ∈ acc, e.1 = b) :
    assocSet (acc.map (fun e => (a, e.2))) a v
      = (assocSet acc b v).map (fun e => (a, e.2)) := by
  induction acc with
  | nil => rfl
  | cons e rest ih =>
    have he : e.1 = b := h e (List.mem_cons_self _ _)
    simp only [List.map_cons, assocSet, he, if_pos]

lemma findNicknameRowsGo_equiv (a b : String)
    (hn : normalizeNick a = normalizeNick b) :
    ∀ (cells : List (Option String)) (i : Nat) (acc : List (String × Nat)),
      (∀ e ∈ acc, e.1 = b) →
      findNicknameRowsGo [a] i (acc.map (fun e => (a, e.2))) cells
        = (findNicknameRowsGo [b] i acc cells).map (fun e => (a, e.2)) := by
  intro cells
  induction cells with
  | nil =>
    intro i acc _
    rfl
  | cons cell rest ih =>
    intro i acc h
    cases cell with
    | none => exact ih (i + 1) acc h
    | some v =>
      by_cases hv : v == ""
      · simp only [findNicknameRowsGo, hv, if_pos]
        exact ih (i + 1) acc h
      · simp only [findNicknameRowsGo, hv, Bool.false_eq_true, if_false]
        rw [lookupOriginal_singleton, lookupOriginal_singleton]
        by_cases hm : (normalizeNick b == normalizeNick v)
        · have hm' : (normalizeNick a == normalizeNick v) = true := by
            rw [hn]
            exact hm
          simp only [hm, hm', if_pos]
          rw [assocSet_rename acc a b _ h]
          exact ih (i + 1) (assocSet acc b (SHEET_DATA_FIRST_ROW + i))
            (assocSet_keys acc b _ h)
        · have hm' : (normalizeNick a == normalizeNick v) = false := by
            rw [hn]
            simpa using hm
          have hmb : (normalizeNick b == normalizeNick v) = false := by
            simpa using hm
          simp only [hm', hmb, Bool.false_eq_true, if_false]
          exact ih (i + 1) acc h

/-- C8: identity matching is invariant under marker-prefix and case
differences — matching `[a]` equals matching `[b]` up to the returned
key being the caller's original string whenever `a` and `b` normalize
alike; a cell matches an input exactly when both normalize (strip one
leading `@`, lowercase) to the same string; and concretely `@User1`
and `user1` both match the sheet cell `@USER1` at row 7. -/
theorem identityMatcher_normalization :
    (∀ (cells : List (Option String)) (a b : String),
        normalizeNick a = normalizeNick b →
        findNicknameRows [a] cells
          = (findNicknameRows [b] cells).map (fun e => (a, e.2)))
    ∧ (∀ (nick v : String),
        (lookupOriginal [nick] (normalizeNick v)).isSome
          ↔ normalizeNick v = normalizeNick nick)
    ∧ findNicknameRows ["@User1"] [some "@USER1"] = [("@User1", 7)]
    ∧ findNicknameRows ["user1"] [some "@USER1"] = [("user1", 7)] := by
  refine ⟨?_, ?_, by decide, by decide⟩
  · intro cells a b hn
    have := findNicknameRowsGo_equiv a b hn cells 0 [] (by simp)
    simpa [findNicknameRows] using this
  · intro nick v
    rw [lookupOriginal_singleton]
    by_cases h : (normalizeNick nick == normalizeNick v)
    · simp only [h, if_pos, Option.isSome_some, true_iff]
      have := of_decide_eq_true (by simpa using h)
      exact this.symm
    · have hf : (normalizeNick nick == normalizeNick v) = false := by simpa using h
      simp only [hf, Bool.false_eq_true, if_false, Option.isSome_none,
        false_iff]
      intro hc
      rw [hc] at hf
      simp at hf

/-- Witness for C8 at the spec's instance: `["@User1"]` and
`["user1"]` against the cell `"@USER1"`. -/
theorem identityMatcher_normalization_witness :
    normalizeNick "@User1" = normalizeNick "user1"
    ∧ findNicknameRows ["@User1"] [some "@USER1"]
        = (findNicknameRows ["user1"] [some "@USER1"]).map (fun e => ("@User1", e.2)) :=
  ⟨by decide,
   identityMatcher_normalization.1 [some "@USER1"] "@User1" "user1" (by decide)⟩

end FootballSync
